import Mathlib

/- A shallow embedding of resticserver.py (the restic REST server): the WSGI
   dispatcher `Application.__iter__`, the `PATH_RE` and `RANGE_RE` regular
   expressions, and the blob-storage handlers, modelled over an explicit
   filesystem value.  The filesystem is an association list from paths
   (lists of segments) to nodes; each handler is a function from a
   filesystem to either a response trace (the sequence of start_response
   calls and yielded body chunks of the Python generator) together with the
   updated filesystem, or a propagated fault (a raised exception).  The
   two-phase behaviour of the Python code is kept: `__iter__` runs inside a
   try/except and only builds the generator; the generator body runs later,
   outside that try/except. -/

set_option maxHeartbeats 1000000
set_option maxRecDepth 8192

abbrev Bytes := List Nat

abbrev FPath := List String

/-- UTF-8 encoding of one character (what `str.encode('utf-8')` does per char). -/
def utf8Char (c : Char) : Bytes :=
  let n := c.toNat
  if n < 128 then [n]
  else if n < 2048 then [192 + n / 64, 128 + n % 64]
  else if n < 65536 then [224 + n / 4096, 128 + (n / 64) % 64, 128 + n % 64]
  else [240 + n / 262144, 128 + (n / 4096) % 64, 128 + (n / 64) % 64, 128 + n % 64]

/-- `message.encode('utf-8')`. -/
def utf8 (s : String) : Bytes :=
  s.data.foldr (fun c acc => utf8Char c ++ acc) []

def READ_BYTES : Nat := 8192

/-- The six blob-type tokens, in the order they appear both in the
    `RESTIC_TYPES` list and in the alternation of `PATH_RE`. -/
def RESTIC_TYPES : List String :=
  ["data", "keys", "locks", "snapshots", "index", "config"]

/-- The `HTTP_RESPONSES` status-line dictionary of the source. -/
def HTTP_RESPONSES : Nat → String
  | 100 => "100 CONTINUE"
  | 101 => "101 SWITCHING_PROTOCOLS"
  | 102 => "102 PROCESSING"
  | 200 => "200 OK"
  | 201 => "201 CREATED"
  | 202 => "202 ACCEPTED"
  | 203 => "203 NON_AUTHORITATIVE_INFORMATION"
  | 204 => "204 NO_CONTENT"
  | 205 => "205 RESET_CONTENT"
  | 206 => "206 PARTIAL_CONTENT"
  | 207 => "207 MULTI_STATUS"
  | 208 => "208 ALREADY_REPORTED"
  | 226 => "226 IM_USED"
  | 300 => "300 MULTIPLE_CHOICES"
  | 301 => "301 MOVED_PERMANENTLY"
  | 302 => "302 FOUND"
  | 303 => "303 SEE_OTHER"
  | 304 => "304 NOT_MODIFIED"
  | 305 => "305 USE_PROXY"
  | 307 => "307 TEMPORARY_REDIRECT"
  | 308 => "308 PERMANENT_REDIRECT"
  | 400 => "400 BAD_REQUEST"
  | 401 => "401 UNAUTHORIZED"
  | 402 => "402 PAYMENT_REQUIRED"
  | 403 => "403 FORBIDDEN"
  | 404 => "404 NOT_FOUND"
  | 405 => "405 METHOD_NOT_ALLOWED"
  | 406 => "406 NOT_ACCEPTABLE"
  | 407 => "407 PROXY_AUTHENTICATION_REQUIRED"
  | 408 => "408 REQUEST_TIMEOUT"
  | 409 => "409 CONFLICT"
  | 410 => "410 GONE"
  | 411 => "411 LENGTH_REQUIRED"
  | 412 => "412 PRECONDITION_FAILED"
  | 413 => "413 REQUEST_ENTITY_TOO_LARGE"
  | 414 => "414 REQUEST_URI_TOO_LONG"
  | 415 => "415 UNSUPPORTED_MEDIA_TYPE"
  | 416 => "416 REQUESTED_RANGE_NOT_SATISFIABLE"
  | 417 => "417 EXPECTATION_FAILED"
  | 421 => "421 MISDIRECTED_REQUEST"
  | 422 => "422 UNPROCESSABLE_ENTITY"
  | 423 => "423 LOCKED"
  | 424 => "424 FAILED_DEPENDENCY"
  | 426 => "426 UPGRADE_REQUIRED"
  | 428 => "428 PRECONDITION_REQUIRED"
  | 429 => "429 TOO_MANY_REQUESTS"
  | 431 => "431 REQUEST_HEADER_FIELDS_TOO_LARGE"
  | 500 => "500 INTERNAL_SERVER_ERROR"
  | 501 => "501 NOT_IMPLEMENTED"
  | 502 => "502 BAD_GATEWAY"
  | 503 => "503 SERVICE_UNAVAILABLE"
  | 504 => "504 GATEWAY_TIMEOUT"
  | 505 => "505 HTTP_VERSION_NOT_SUPPORTED"
  | 506 => "506 VARIANT_ALSO_NEGOTIATES"
  | 507 => "507 INSUFFICIENT_STORAGE"
  | 508 => "508 LOOP_DETECTED"
  | 510 => "510 NOT_EXTENDED"
  | 511 => "511 NETWORK_AUTHENTICATION_REQUIRED"
  | _ => ""

/- ### PATH_RE and RANGE_RE

   `PATH_RE` is
   `^/?(?P<path>[^/]+)/?(?P<type>data|keys|locks|snapshots|index|config)?/?(?P<name>[^/]+)?/?$`
   and `RANGE_RE` is `^bytes=(?P<start>\d+)-(?P<end>\d+)?` (no end anchor).
   Both are embedded as specialised backtracking matchers with Python's
   leftmost / greedy semantics: `?` tries one occurrence before zero,
   `[^/]+` tries the longest run first, an alternation tries its branches
   left to right.  The candidate lists below are ordered accordingly and a
   match takes the first success. -/

/-- Match a literal character sequence at the head of the input. -/
def dropLit : List Char → List Char → Option (List Char)
  | [], cs => some cs
  | _ :: _, [] => none
  | l :: ls, c :: cs => if l = c then dropLit ls cs else none

/-- Longest run of characters matching `[^/]`. -/
def nonSlashRun (cs : List Char) : List Char :=
  cs.takeWhile (fun c => c != '/')

/-- Candidate remainders for the greedy `/?`: consume a slash first, then none. -/
def tryOptSlash (cs : List Char) : List (List Char) :=
  match cs with
  | '/' :: rest => [rest, cs]
  | _ => [cs]

/-- Candidate (captured, remainder) splits for a greedy `[^/]+`, longest first. -/
def plusSplits (cs : List Char) : List (List Char × List Char) :=
  let r := nonSlashRun cs
  (List.range r.length).map (fun i => (cs.take (r.length - i), cs.drop (r.length - i)))

/-- Candidate (capture, remainder) results for the optional type alternation
    `(data|keys|locks|snapshots|index|config)?`: branches in order, then skip. -/
def tryType (cs : List Char) : List (Option String × List Char) :=
  (RESTIC_TYPES.filterMap (fun tok =>
    match dropLit tok.data cs with
    | some rest => some (some tok, rest)
    | none => none)) ++ [(none, cs)]

/-- Candidate (capture, remainder) results for the optional name group
    `([^/]+)?`: longest first, then skip. -/
def tryOptName (cs : List Char) : List (Option (List Char) × List Char) :=
  (plusSplits cs).map (fun pr => (some pr.1, pr.2)) ++ [(none, cs)]

/-- `PATH_RE.match(s)`: returns the `path`, `type` and `name` groups. -/
def pathReMatch (s : String) : Option (String × Option String × Option String) :=
  (tryOptSlash s.data).findSome? (fun c1 =>
  (plusSplits c1).findSome? (fun pc =>
  (tryOptSlash pc.2).findSome? (fun c3 =>
  (tryType c3).findSome? (fun tc =>
  (tryOptSlash tc.2).findSome? (fun c5 =>
  (tryOptName c5).findSome? (fun nc =>
  (tryOptSlash nc.2).findSome? (fun c7 =>
  if c7 = [] then some (String.mk pc.1, tc.1, nc.1.map String.mk) else none)))))))

/-- `Application.get_path`: parse PATH_INFO, returning `(None, None, None)`
    when the pattern does not match. -/
def get_path (s : String) : Option String × Option String × Option String :=
  match pathReMatch s with
  | some (p, t, n) => (some p, t, n)
  | none => (none, none, none)

/-- Leading run of `\d` characters. -/
def digitRun (cs : List Char) : List Char :=
  cs.takeWhile (fun c => c.isDigit)

def digitsToNat (cs : List Char) : Nat :=
  cs.foldl (fun a c => a * 10 + (c.toNat - 48)) 0

/-- `RANGE_RE.match(s)`: the `start` group and the optional `end` group.
    There is no end anchor, so trailing text (e.g. further comma-separated
    ranges) is ignored. -/
def parseRange (s : String) : Option (Nat × Option Nat) :=
  match dropLit "bytes=".data s.data with
  | none => none
  | some r1 =>
    let d1 := digitRun r1
    if d1 = [] then none
    else
      match r1.drop d1.length with
      | '-' :: r2 =>
        let d2 := digitRun r2
        some (digitsToNat d1, if d2 = [] then none else some (digitsToNat d2))
      | _ => none

/- ### Filesystem model -/

inductive Node where
  | file (content : Bytes)
  | dir
  | symlink (target : FPath)
deriving DecidableEq, Repr

abbrev Fs := List (FPath × Node)

/-- `os.path.join(p, s)` for a single extra segment. -/
def joinP (p : FPath) (s : String) : FPath := p ++ [s]

/-- Look up the node stored literally at a path (no symlink resolution). -/
def fsFind (fs : Fs) (p : FPath) : Option Node :=
  (fs.find? (fun e => decide (e.1 = p))).map (fun e => e.2)

/-- `os.stat` with symlink resolution, fuel-bounded: a chain longer than the
    filesystem (in particular a cycle, ELOOP) fails like a missing path. -/
def statNodeF : Nat → Fs → FPath → Option Node
  | 0, _, _ => none
  | fuel + 1, fs, p =>
    match fsFind fs p with
    | some (Node.symlink t) => statNodeF fuel fs t
    | some nd => some nd
    | none => none

def statNode (fs : Fs) (p : FPath) : Option Node :=
  statNodeF (fs.length + 1) fs p

/-- `os.path.exists`: true iff `os.stat` succeeds (false for dangling links). -/
def pathExists (fs : Fs) (p : FPath) : Bool :=
  (statNode fs p).isSome

/-- `st_size`: the byte length for files.  (Directory sizes are irrelevant
    to the verified code paths and modelled as 0.) -/
def nodeSize : Node → Nat
  | Node.file c => c.length
  | _ => 0

/-- `stat.S_ISREG(st_mode)` of a resolved stat result. -/
def isReg : Node → Bool
  | Node.file _ => true
  | _ => false

/-- The entry names directly below a directory path, in filesystem
    (insertion) order -- the model's `os.listdir` enumeration order. -/
def childNames (fs : Fs) (p : FPath) : List String :=
  fs.filterMap (fun e => if e.1.dropLast = p ∧ e.1 ≠ [] then e.1.getLast? else none)

/-- `os.listdir`: fails on a missing path or a non-directory.  Directory
    paths are treated literally; symlinks are modelled as leaf entries,
    which covers every code path verified here. -/
def listdir (fs : Fs) (p : FPath) : Except String (List String) :=
  match fsFind fs p with
  | some Node.dir => Except.ok (childNames fs p)
  | some _ => Except.error "NotADirectoryError"
  | none => Except.error "FileNotFoundError"

/-- `os.mkdir`: fails if the path already exists (even as a dangling
    symlink) or the parent directory is missing. -/
def mkdir (fs : Fs) (p : FPath) : Except String Fs :=
  if (fsFind fs p).isSome then Except.error "FileExistsError"
  else
    match fsFind fs p.dropLast with
    | some Node.dir => Except.ok (fs ++ [(p, Node.dir)])
    | _ => Except.error "FileNotFoundError"

/-- `open(p, 'wb')` followed by writing the whole stream: creates or
    truncates the file.  Fails when the parent directory is missing or the
    target is a directory.  (Writing through a symlink is outside the
    model; no verified code path does it.) -/
def writeFile (fs : Fs) (p : FPath) (content : Bytes) : Except String Fs :=
  match fsFind fs p.dropLast with
  | some Node.dir =>
    match fsFind fs p with
    | none => Except.ok (fs ++ [(p, Node.file content)])
    | some (Node.file _) =>
        Except.ok (fs.map (fun e => if e.1 = p then (p, Node.file content) else e))
    | some _ => Except.error "IsADirectoryError"
  | _ => Except.error "FileNotFoundError"

/-- `os.unlink`: removes a file or a symlink (without following it). -/
def unlink (fs : Fs) (p : FPath) : Except String Fs :=
  match fsFind fs p with
  | some (Node.file _) => Except.ok (fs.filter (fun e => !(decide (e.1 = p))))
  | some (Node.symlink _) => Except.ok (fs.filter (fun e => !(decide (e.1 = p))))
  | some Node.dir => Except.error "IsADirectoryError"
  | none => Except.error "FileNotFoundError"

/-- `pre` is a path prefix of `q`. -/
def hasPrefixPath : FPath → FPath → Bool
  | [], _ => true
  | _ :: _, [] => false
  | a :: as, b :: bs => a == b && hasPrefixPath as bs

/-- `shutil.rmtree`: removes the directory and everything below it. -/
def rmtree (fs : Fs) (p : FPath) : Fs :=
  fs.filter (fun e => !(hasPrefixPath p e.1))

/- ### Requests, traces and generators -/

/-- The parts of the WSGI environ the application reads.  `queryCreate` is
    the parsed `create` query parameter value list (`parse_qs` result);
    `body` is the full content of `wsgi.input`. -/
structure Env where
  requestMethod : String
  pathInfo : String
  queryCreate : List String
  httpRange : Option String
  body : Bytes
deriving Repr

/-- One observable event of a handler generator: a `start_response` call
    (status line and header list) or a yielded body chunk. -/
inductive Ev where
  | sr (status : String) (headers : List (String × String))
  | chunk (data : Bytes)
deriving DecidableEq, Repr

abbrev Trace := List Ev

/-- Concatenation of all yielded chunks: the body the client receives. -/
def traceBody : Trace → Bytes
  | [] => []
  | Ev.chunk d :: r => d ++ traceBody r
  | Ev.sr _ _ :: r => traceBody r

/-- A handler generator: iterating it consumes a filesystem and either
    produces the full event trace (and updated filesystem) or raises. -/
abbrev Gen := Fs → Except String (Trace × Fs)

/-- `Application.send_error`: starts a 500 response and returns the body. -/
def send_error (msg : String) : Trace :=
  [Ev.sr (HTTP_RESPONSES 500) [("Content-Type", "text/plain")], Ev.chunk (utf8 msg)]

/-- `Application.send_not_found`: starts a 404 response and returns the body. -/
def send_not_found (msg : String) : Trace :=
  [Ev.sr (HTTP_RESPONSES 404) [("Content-Type", "text/plain")], Ev.chunk (utf8 msg)]

/-- `Application.yield_error` as a generator. -/
def yield_error (msg : String) : Gen :=
  fun fs => Except.ok (send_error msg, fs)

/-- `str(name[:2])` -- Python slices by code point, as the char list does. -/
def strTake2 (s : String) : String := String.mk (s.data.take 2)

/- ### Read loops

   The handlers stream file contents in READ_BYTES chunks.  Both loops are
   written with explicit fuel (any fuel larger than the file length is
   enough) so they stay structurally recursive and computable. -/

def fullChunksF : Nat → Bytes → Nat → List Bytes
  | 0, _, _ => []
  | fuel + 1, content, pos =>
    let data := (content.drop pos).take READ_BYTES
    if data = [] then []
    else data :: fullChunksF fuel content (pos + data.length)

/-- The chunks yielded by the plain `while True: read(READ_BYTES)` loop. -/
def fullChunks (content : Bytes) (pos : Nat) : List Bytes :=
  fullChunksF (content.length + 1) content pos

def rangeChunksF : Nat → Bytes → Nat → Nat → Int → List Bytes
  | 0, _, _, _, _ => []
  | fuel + 1, content, pos, sent, len =>
    let data := (content.drop pos).take READ_BYTES
    if data = [] ∨ (sent : Int) ≥ len then []
    else
      (if (sent : Int) + data.length > len then data.take (len - (sent : Int)).toNat else data)
        :: rangeChunksF fuel content (pos + data.length) (sent + data.length) len

/-- The chunks yielded by the Range read loop of `get_path_data`: it seeks
    to `pos`, reads READ_BYTES at a time, truncates the chunk that crosses
    `len`, and stops once `sent_length >= length` or the file is
    exhausted.  `sent_length` advances by the full chunk read, as in the
    source. -/
def rangeChunks (content : Bytes) (pos sent : Nat) (len : Int) : List Bytes :=
  rangeChunksF (content.length + 1) content pos sent len

def flattenChunks : List Bytes → Bytes
  | [] => []
  | b :: r => b ++ flattenChunks r

/- ### JSON encoding (json.dumps with default separators) -/

/-- One `{"name": ..., "size": ...}` object.  Names are file names; the
    escape-free form suffices for the segments the path grammar admits. -/
def jsonItem (r : String × Nat) : String :=
  "\x7b\"name\": \"" ++ r.1 ++ "\", \"size\": " ++ toString r.2 ++ "\x7d"

def jsonDumps (rs : List (String × Nat)) : String :=
  "[" ++ String.intercalate ", " (rs.map jsonItem) ++ "]"

/- ### Handlers -/

/-- Attempt a sequence of `os.mkdir` calls, stopping at the first failure;
    directories created before the failure persist. -/
def mkdirSeq : Fs → List FPath → Fs × Option String
  | fs, [] => (fs, none)
  | fs, p :: ps =>
    match mkdir fs p with
    | Except.ok fs2 => mkdirSeq fs2 ps
    | Except.error e => (fs, some e)

/-- `Application.create_repository`.  The dispatcher can pass `path = None`
    (a query-only URL), in which case `os.path.join(ROOT_PATH, None)`
    raises TypeError inside the generator body.  Note the missing `return`
    in the source's except branch: on a creation failure the generator
    yields the 500 error and then still falls through to
    `start_response(200)` and an empty chunk. -/
def create_repository (root : FPath) (pOpt : Option String) : Gen := fun fs =>
  match pOpt with
  | none => Except.error "TypeError"
  | some path =>
    let full := joinP root path
    if pathExists fs full then
      Except.ok ([Ev.sr (HTTP_RESPONSES 200) [], Ev.chunk []], fs)
    else
      match mkdirSeq fs (full :: (RESTIC_TYPES.filter (fun t => !(t == "config"))).map (joinP full)) with
      | (fs2, none) => Except.ok ([Ev.sr (HTTP_RESPONSES 200) [], Ev.chunk []], fs2)
      | (fs2, some _) =>
          Except.ok (send_error "Failed to create repository." ++
            [Ev.sr (HTTP_RESPONSES 200) [], Ev.chunk []], fs2)

/-- `Application.delete_repository`. -/
def delete_repository (root : FPath) (path : String) : Gen := fun fs =>
  let full := joinP root path
  if pathExists fs full then
    match fsFind fs full with
    | some Node.dir => Except.ok ([Ev.sr (HTTP_RESPONSES 200) [], Ev.chunk []], rmtree fs full)
    | _ => Except.error "NotADirectoryError"
  else
    Except.ok (send_error "Repository does not exist.", fs)

/-- `Application.config_exists`. -/
def config_exists (root : FPath) (path : String) : Gen := fun fs =>
  let full := joinP (joinP root path) "config"
  match statNode fs full with
  | some nd =>
      Except.ok ([Ev.sr (HTTP_RESPONSES 200)
        [("Content-Type", "text/plain"), ("Content-Length", toString (nodeSize nd))],
        Ev.chunk []], fs)
  | none => Except.ok (send_error "Configuration does not exist.", fs)

/-- `Application.get_config`. -/
def get_config (root : FPath) (path : String) : Gen := fun fs =>
  let full := joinP (joinP root path) "config"
  match statNode fs full with
  | some (Node.file c) =>
      Except.ok ([Ev.sr (HTTP_RESPONSES 200)
        [("Content-Type", "binary/octet-stream"), ("Content-Length", toString c.length)]] ++
        (fullChunks c 0).map Ev.chunk, fs)
  | some _ => Except.error "IsADirectoryError"
  | none => Except.ok (send_error "Configuration does not exist.", fs)

/-- `Application.set_config`: writes the whole request body to the config
    file (the chunked copy loop amounts to writing the full stream). -/
def set_config (root : FPath) (env : Env) (path : String) : Gen := fun fs =>
  match writeFile fs (joinP (joinP root path) "config") env.body with
  | Except.ok fs2 => Except.ok ([Ev.sr (HTTP_RESPONSES 200) [], Ev.chunk []], fs2)
  | Except.error e => Except.error e

/-- The loop body shared by both listing loops: `os.stat` the entry and
    append `{name, size}` when `S_ISREG`. -/
def regEntry (fs : Fs) (base : FPath) (acc : List (String × Nat)) (n : String) :
    Except String (List (String × Nat)) :=
  match statNode fs (joinP base n) with
  | some nd => Except.ok (if isReg nd then acc ++ [(n, nodeSize nd)] else acc)
  | none => Except.error "FileNotFoundError"

/-- The `results` list built by `Application.get_path_list`: for `data`,
    every shard folder is enumerated; otherwise the type directory
    directly. -/
def path_list_results (root : FPath) (fs : Fs) (path rtype : String) :
    Except String (List (String × Nat)) :=
  let full := joinP (joinP root path) rtype
  if rtype = "data" then do
    let folders ← listdir fs full
    folders.foldlM (fun acc folder => do
      let names ← listdir fs (joinP full folder)
      names.foldlM (regEntry fs (joinP full folder)) acc) []
  else do
    let names ← listdir fs full
    names.foldlM (regEntry fs full) []

/-- `Application.get_path_list`. -/
def get_path_list (root : FPath) (path rtype : String) : Gen := fun fs =>
  match path_list_results root fs path rtype with
  | Except.ok results =>
      Except.ok ([Ev.sr (HTTP_RESPONSES 200)
        [("Content-Type", "application/vnd.x.restic.rest.v2")],
        Ev.chunk (utf8 (jsonDumps results))], fs)
  | Except.error e => Except.error e

/-- `Application.get_path_check`. -/
def get_path_check (root : FPath) (path rtype name : String) : Gen := fun fs =>
  let full := if rtype = "data"
    then joinP (joinP (joinP (joinP root path) rtype) (strTake2 name)) name
    else joinP (joinP (joinP root path) rtype) name
  match statNode fs full with
  | some nd =>
      Except.ok ([Ev.sr (HTTP_RESPONSES 200)
        [("Content-Type", "text/plain"), ("Content-Length", toString (nodeSize nd))],
        Ev.chunk []], fs)
  | none => Except.ok (send_not_found "Requested path data does not exist.", fs)

/-- The `end or ''` part of the Content-Range header: empty for both an
    absent end group and `end == 0` (both falsy in Python). -/
def rangeEndStr (endOpt : Option Nat) : String :=
  match endOpt with
  | some e => if e ≠ 0 then toString e else ""
  | none => ""

/-- `Application.get_path_data`. -/
def get_path_data (root : FPath) (env : Env) (path rtype name : String) : Gen := fun fs =>
  let full := if rtype = "data"
    then joinP (joinP (joinP (joinP root path) rtype) (strTake2 name)) name
    else joinP (joinP (joinP root path) rtype) name
  match statNode fs full with
  | none => Except.ok (send_not_found "Requested path data does not exist.", fs)
  | some nd =>
    let size := nodeSize nd
    let rm : Option (Nat × Option Nat) :=
      match env.httpRange with
      | some s => if s = "" then none else parseRange s
      | none => none
    match rm with
    | some (start, endOpt) =>
      let lengthI : Int :=
        match endOpt with
        | some e => if e ≠ 0 then (e : Int) - (start : Int) + 1 else (size : Int) - (start : Int)
        | none => (size : Int) - (start : Int)
      match nd with
      | Node.file c =>
          Except.ok ([Ev.sr (HTTP_RESPONSES 206)
            [("Content-Type", "binary/octet-stream"),
             ("Content-Length", toString lengthI),
             ("Content-Range", "bytes=" ++ toString start ++ "-" ++ rangeEndStr endOpt)]] ++
            (rangeChunks c start 0 lengthI).map Ev.chunk, fs)
      | _ => Except.error "IsADirectoryError"
    | none =>
      match nd with
      | Node.file c =>
          Except.ok ([Ev.sr (HTTP_RESPONSES 200)
            [("Content-Type", "binary/octet-stream"),
             ("Content-Length", toString size)]] ++
            (fullChunks c 0).map Ev.chunk, fs)
      | _ => Except.error "IsADirectoryError"

/-- `Application.set_path_data`. -/
def set_path_data (root : FPath) (env : Env) (path rtype name : String) : Gen := fun fs =>
  if rtype = "data" then
    let shard := joinP (joinP (joinP root path) rtype) (strTake2 name)
    let step1 : Except String Fs :=
      if !(pathExists fs shard) then mkdir fs shard else Except.ok fs
    match step1 with
    | Except.error e => Except.error e
    | Except.ok fs1 =>
      match writeFile fs1 (joinP shard name) env.body with
      | Except.ok fs2 => Except.ok ([Ev.sr (HTTP_RESPONSES 200) [], Ev.chunk []], fs2)
      | Except.error e => Except.error e
  else
    match writeFile fs (joinP (joinP (joinP root path) rtype) name) env.body with
    | Except.ok fs2 => Except.ok ([Ev.sr (HTTP_RESPONSES 200) [], Ev.chunk []], fs2)
    | Except.error e => Except.error e

/-- `Application.delete_path_data`. -/
def delete_path_data (root : FPath) (path rtype name : String) : Gen := fun fs =>
  let full := if rtype = "data"
    then joinP (joinP (joinP (joinP root path) rtype) (strTake2 name)) name
    else joinP (joinP (joinP root path) rtype) name
  if pathExists fs full then
    match unlink fs full with
    | Except.ok fs2 => Except.ok ([Ev.sr (HTTP_RESPONSES 200) [], Ev.chunk []], fs2)
    | Except.error e => Except.error e
  else
    Except.ok (send_error "Path data does not exist.", fs)

/- ### The dispatcher -/

/-- The `valid_methods` decorator: its check runs when the wrapper is
    called inside `__iter__` (so a mismatch is caught by the dispatcher's
    try/except), before the generator is handed back. -/
def withMethods (env : Env) (ms : List String) (g : Gen) : Except String Gen :=
  if ms.contains env.requestMethod then Except.ok g else Except.error "Method not allowed"

/-- The routing conditionals of `Application.__iter__`, over the parsed
    `(path, type, name)` triple.  The nested if/elif chains become ordered
    match arms; each guarded handler keeps its `valid_methods` wrapper. -/
def dispatchTriple (root : FPath) (env : Env)
    (pr : Option String × Option String × Option String) : Except String Gen :=
  let p := pr.1
  let t := pr.2.1
  let n := pr.2.2
  let create := env.queryCreate.contains "true"
  if env.requestMethod = "GET" then
    match p, t, n with
    | some path, some "config", _ => withMethods env ["GET"] (get_config root path)
    | some path, some rtype, none => withMethods env ["GET"] (get_path_list root path rtype)
    | some path, some rtype, some name => withMethods env ["GET"] (get_path_data root env path rtype name)
    | _, _, _ => Except.ok (yield_error "Not Implemented")
  else if env.requestMethod = "POST" then
    match create, t, n with
    | true, none, none => withMethods env ["POST"] (create_repository root p)
    | _, _, _ =>
      match p, t, n with
      | some path, some "config", _ => withMethods env ["POST"] (set_config root env path)
      | some path, some rtype, some name => withMethods env ["POST"] (set_path_data root env path rtype name)
      | _, _, _ => Except.ok (yield_error "Not Implemented")
  else if env.requestMethod = "DELETE" then
    match p, t, n with
    | some path, none, none => withMethods env ["DELETE"] (delete_repository root path)
    | some path, some rtype, some name => withMethods env ["DELETE"] (delete_path_data root path rtype name)
    | _, _, _ => Except.ok (yield_error "Not Implemented")
  else if env.requestMethod = "HEAD" then
    match p, t, n with
    | some path, some "config", _ => withMethods env ["HEAD"] (config_exists root path)
    | some path, some rtype, some name => withMethods env ["HEAD"] (get_path_check root path rtype name)
    | _, _, _ => Except.ok (yield_error "Not Implemented")
  else
    Except.ok (yield_error "Unsupported request method.")

/-- `Application.__iter__`: everything up to (and including) building the
    handler generator runs inside try/except and degrades to the generic
    error generator; the returned generator itself runs outside it. -/
def iterGen (root : FPath) (env : Env) : Gen := fun fs =>
  match dispatchTriple root env (get_path env.pathInfo) with
  | Except.ok g => g fs
  | Except.error _ => yield_error "Something unexpected occurred." fs

/-- One full request: build the generator (guarded phase), then iterate it
    (unguarded phase). -/
def serve (root : FPath) (env : Env) (fs : Fs) : Except String (Trace × Fs) :=
  iterGen root env fs

/-- Second definition following the spec's words (§4.6): the (method,
    resource-shape) pairs the spec's compatibility matrix leaves unmatched.
    Used only to state the claim about unmatched requests. -/
def specUnmatched (method : String) (create : Bool) (p t n : Option String) : Bool :=
  if method = "GET" then p.isNone || t.isNone
  else if method = "POST" then
    !((create && t.isNone && n.isNone) || (p.isSome && (t == some "config")) ||
      (p.isSome && t.isSome && n.isSome))
  else if method = "DELETE" then
    !((p.isSome && t.isNone && n.isNone) || (p.isSome && t.isSome && n.isSome))
  else if method = "HEAD" then
    !((p.isSome && (t == some "config")) || (p.isSome && t.isSome && n.isSome))
  else true

/- ### Helper lemmas: paths and the filesystem -/

theorem joinP_dropLast (p : FPath) (s : String) : (joinP p s).dropLast = p :=
  List.dropLast_concat

theorem joinP_getLast (p : FPath) (s : String) : (joinP p s).getLast? = some s :=
  List.getLast?_concat p

theorem joinP_ne (p : FPath) (s : String) : joinP p s ≠ p := by
  intro h
  have := congrArg List.length h
  simp [joinP] at this

theorem joinP_ne_of_length {p q : FPath} (s u : String) (h : p.length ≠ q.length) :
    joinP p s ≠ joinP q u := by
  intro he
  have := congrArg List.length he
  simp [joinP] at this
  omega

theorem fsFind_append (fs l : Fs) (p : FPath) :
    fsFind (fs ++ l) p = (fsFind fs p).or (fsFind l p) := by
  unfold fsFind
  rw [List.find?_append]
  cases List.find? (fun e => decide (e.1 = p)) fs <;> simp [Option.or]

theorem fsFind_single (q : FPath) (nd : Node) (p : FPath) :
    fsFind [(q, nd)] p = if q = p then some nd else none := by
  by_cases h : q = p <;> simp [fsFind, List.find?_cons, h]

theorem fsFind_mem {fs : Fs} {p : FPath} {nd : Node} (h : fsFind fs p = some nd) :
    (p, nd) ∈ fs := by
  unfold fsFind at h
  cases he : List.find? (fun e => decide (e.1 = p)) fs with
  | none => rw [he] at h; simp at h
  | some e =>
    rw [he] at h
    simp at h
    have hm := List.mem_of_find?_eq_some he
    have hp := List.find?_some he
    simp at hp
    obtain ⟨e1, e2⟩ := e
    simp at hp h
    rw [hp, h] at hm
    exact hm

theorem fsFind_cons_of_ne {e : FPath × Node} {fs : Fs} {p : FPath} (h : e.1 ≠ p) :
    fsFind (e :: fs) p = fsFind fs p := by
  unfold fsFind
  rw [List.find?_cons_of_neg]
  simp [h]

theorem fsFind_cons_self {p : FPath} {nd : Node} {fs : Fs} :
    fsFind ((p, nd) :: fs) p = some nd := by
  unfold fsFind
  rw [List.find?_cons_of_pos] <;> simp

theorem fsFind_replace_self {fs : Fs} {p : FPath} {nd : Node} (B : Bytes)
    (h : fsFind fs p = some nd) :
    fsFind (fs.map (fun e => if e.1 = p then (p, Node.file B) else e)) p
      = some (Node.file B) := by
  induction fs with
  | nil => simp [fsFind] at h
  | cons e fs ih =>
    rw [List.map_cons]
    by_cases hp : e.1 = p
    · rw [if_pos hp, fsFind_cons_self]
    · rw [if_neg hp, fsFind_cons_of_ne hp]
      rw [fsFind_cons_of_ne hp] at h
      exact ih h

theorem fsFind_replace_ne {fs : Fs} {p q : FPath} (B : Bytes) (h : q ≠ p) :
    fsFind (fs.map (fun e => if e.1 = p then (p, Node.file B) else e)) q
      = fsFind fs q := by
  induction fs with
  | nil => simp [fsFind]
  | cons e fs ih =>
    rw [List.map_cons]
    by_cases hp : e.1 = p
    · rw [if_pos hp]
      rw [fsFind_cons_of_ne (show (p, Node.file B).1 ≠ q from fun hh => h hh.symm)]
      rw [fsFind_cons_of_ne (show e.1 ≠ q from by rw [hp]; exact fun hh => h hh.symm)]
      exact ih
    · rw [if_neg hp]
      by_cases heq : e.1 = q
      · unfold fsFind
        rw [List.find?_cons_of_pos, List.find?_cons_of_pos] <;> simp [heq]
      · rw [fsFind_cons_of_ne heq, fsFind_cons_of_ne heq]
        exact ih

theorem mem_replace {fs : Fs} {p : FPath} {B : Bytes} {e : FPath × Node}
    (h : e ∈ fs.map (fun e => if e.1 = p then (p, Node.file B) else e)) :
    e ∈ fs ∨ e = (p, Node.file B) := by
  rw [List.mem_map] at h
  obtain ⟨a, ha, hfa⟩ := h
  by_cases hp : a.1 = p
  · right; rw [← hfa]; simp [hp]
  · left; rw [← hfa]; simp [hp]; exact ha

theorem statNode_find_file {fs : Fs} {p : FPath} {c : Bytes}
    (h : fsFind fs p = some (Node.file c)) : statNode fs p = some (Node.file c) := by
  unfold statNode
  simp [statNodeF, h]

theorem statNode_find_dir {fs : Fs} {p : FPath}
    (h : fsFind fs p = some Node.dir) : statNode fs p = some Node.dir := by
  unfold statNode
  simp [statNodeF, h]

theorem statNode_find_none {fs : Fs} {p : FPath}
    (h : fsFind fs p = none) : statNode fs p = none := by
  unfold statNode
  simp [statNodeF, h]

theorem pathExists_of_find_dir {fs : Fs} {p : FPath}
    (h : fsFind fs p = some Node.dir) : pathExists fs p = true := by
  simp [pathExists, statNode_find_dir h]

theorem pathExists_of_find_none {fs : Fs} {p : FPath}
    (h : fsFind fs p = none) : pathExists fs p = false := by
  simp [pathExists, statNode_find_none h]

theorem childNames_mem {fs : Fs} {p : FPath} {n : String} {nd : Node}
    (h : (joinP p n, nd) ∈ fs) : n ∈ childNames fs p := by
  unfold childNames
  rw [List.mem_filterMap]
  refine ⟨(joinP p n, nd), h, ?_⟩
  have h1 : (joinP p n).dropLast = p := joinP_dropLast p n
  have h2 : joinP p n ≠ [] := by simp [joinP]
  simp [h1, h2, joinP_getLast]

/- ### Helper lemmas: traces and the read loops -/

theorem traceBody_sr_cons (s : String) (h : List (String × String)) (r : Trace) :
    traceBody (Ev.sr s h :: r) = traceBody r := rfl

theorem traceBody_map_chunk (l : List Bytes) :
    traceBody (l.map Ev.chunk) = flattenChunks l := by
  induction l with
  | nil => rfl
  | cons b r ih => simp [traceBody, flattenChunks, ih]

theorem take_READ_BYTES_eq_nil_iff (l : Bytes) : l.take READ_BYTES = [] ↔ l = [] := by
  constructor
  · intro h
    cases l with
    | nil => rfl
    | cons a r => simp [READ_BYTES, List.take] at h
  · intro h; simp [h]

theorem take_take_READ (l : Bytes) :
    l.take ((l.take READ_BYTES).length) = l.take READ_BYTES := by
  rw [List.length_take]
  rcases Nat.le_total READ_BYTES l.length with h | h
  · rw [Nat.min_eq_left h]
  · rw [Nat.min_eq_right h, List.take_of_length_le h, List.take_of_length_le (le_refl _)]

theorem fullChunksF_flatten (fuel : Nat) : ∀ (content : Bytes) (pos : Nat),
    content.length - pos < fuel →
    flattenChunks (fullChunksF fuel content pos) = content.drop pos := by
  induction fuel with
  | zero => intro c pos h; omega
  | succ fuel ih =>
    intro c pos h
    rw [fullChunksF]
    by_cases hd : (c.drop pos).take READ_BYTES = []
    · rw [if_pos hd]
      rw [take_READ_BYTES_eq_nil_iff] at hd
      simp [flattenChunks, hd]
    · rw [if_neg hd]
      have hne : c.drop pos ≠ [] := by
        intro hz; rw [hz] at hd; simp at hd
      have hpos : pos < c.length := by
        by_contra hc
        exact hne (List.drop_eq_nil_iff_le.mpr (by omega))
      have hlen1 : 1 ≤ ((c.drop pos).take READ_BYTES).length :=
        List.length_pos.mpr hd
      rw [flattenChunks, ih]
      · rw [← List.drop_drop]
        conv_rhs => rw [← List.take_append_drop ((c.drop pos).take READ_BYTES).length (c.drop pos)]
        rw [take_take_READ]
      · have : ((c.drop pos).take READ_BYTES).length ≤ c.length - pos := by
          rw [List.length_take, List.length_drop]; omega
        omega

theorem fullChunks_flatten (content : Bytes) :
    flattenChunks (fullChunks content 0) = content := by
  rw [fullChunks, fullChunksF_flatten] <;> simp

theorem rangeChunksF_flatten (fuel : Nat) : ∀ (content : Bytes) (pos sent : Nat) (len : Int),
    content.length - pos < fuel →
    flattenChunks (rangeChunksF fuel content pos sent len)
      = (content.drop pos).take (len - (sent : Int)).toNat := by
  induction fuel with
  | zero => intro c pos sent len h; omega
  | succ fuel ih =>
    intro c pos sent len h
    rw [rangeChunksF]
    by_cases hstop : (c.drop pos).take READ_BYTES = [] ∨ (sent : Int) ≥ len
    · rw [if_pos hstop]
      rcases hstop with hd | hs
      · rw [take_READ_BYTES_eq_nil_iff] at hd
        simp [flattenChunks, hd]
      · have : (len - (sent : Int)).toNat = 0 := by omega
        simp [flattenChunks, this]
    · rw [if_neg hstop]
      push_neg at hstop
      obtain ⟨hd, hs⟩ := hstop
      have hne : c.drop pos ≠ [] := by
        intro hz; rw [hz] at hd; simp at hd
      have hpos : pos < c.length := by
        by_contra hc
        exact hne (List.drop_eq_nil_iff_le.mpr (by omega))
      have hlen1 : 1 ≤ ((c.drop pos).take READ_BYTES).length :=
        List.length_pos.mpr hd
      have hlenle : ((c.drop pos).take READ_BYTES).length ≤ c.length - pos := by
        rw [List.length_take, List.length_drop]; omega
      have hmeas : c.length - (pos + ((c.drop pos).take READ_BYTES).length) < fuel := by
        omega
      by_cases hgt : (sent : Int) + ((c.drop pos).take READ_BYTES).length > len
      · rw [if_pos hgt]
        rw [flattenChunks, ih _ _ _ _ hmeas]
        have hz : (len - ((sent : Int) + ((c.drop pos).take READ_BYTES).length)).toNat = 0 := by
          omega
        rw [Nat.cast_add, hz]
        simp only [List.take_zero, List.append_nil]
        rw [List.take_take]
        have hmin : (len - (sent : Int)).toNat ⊓ READ_BYTES = (len - (sent : Int)).toNat := by
          have h1 : (len - (sent : Int)).toNat < ((c.drop pos).take READ_BYTES).length := by omega
          have h2 : ((c.drop pos).take READ_BYTES).length ≤ READ_BYTES := by
            rw [List.length_take]; omega
          omega
        rw [hmin]
      · rw [if_neg hgt]
        push_neg at hgt
        rw [flattenChunks, ih _ _ _ _ hmeas]
        rw [← List.drop_drop]
        have hsplit : (len - (sent : Int)).toNat
            = ((c.drop pos).take READ_BYTES).length
              + (len - ((sent : Int) + ((c.drop pos).take READ_BYTES).length)).toNat := by
          omega
        rw [Nat.cast_add, hsplit, List.take_add, take_take_READ]

/- ### Helper lemmas: write, mkdir, Except folding -/

theorem mkdir_ok {fs : Fs} {p : FPath}
    (hparent : fsFind fs p.dropLast = some Node.dir) (hnone : fsFind fs p = none) :
    mkdir fs p = Except.ok (fs ++ [(p, Node.dir)]) := by
  unfold mkdir
  rw [hnone, hparent]
  simp

theorem writeFile_ok {fs : Fs} {p : FPath} (B : Bytes)
    (hparent : fsFind fs p.dropLast = some Node.dir)
    (htarget : fsFind fs p = none ∨ ∃ c, fsFind fs p = some (Node.file c)) :
    ∃ fs2, writeFile fs p B = Except.ok fs2 ∧
      fsFind fs2 p = some (Node.file B) ∧
      (∀ q, q ≠ p → fsFind fs2 q = fsFind fs q) ∧
      (∀ e, e ∈ fs2 → e ∈ fs ∨ e = (p, Node.file B)) ∧
      (∀ e, e ∈ fs → e.1 ≠ p → e ∈ fs2) := by
  unfold writeFile
  rw [hparent]
  rcases htarget with hn | ⟨c, hc⟩
  · rw [hn]
    refine ⟨fs ++ [(p, Node.file B)], rfl, ?_, ?_, ?_, ?_⟩
    · rw [fsFind_append, hn, fsFind_single]
      simp [Option.or]
    · intro q hq
      rw [fsFind_append, fsFind_single]
      have : ¬ (p = q) := fun h => hq h.symm
      rw [if_neg this]
      cases fsFind fs q <;> simp [Option.or]
    · intro e he
      rcases List.mem_append.mp he with h1 | h2
      · exact Or.inl h1
      · right; simpa using h2
    · intro e he _
      exact List.mem_append.mpr (Or.inl he)
  · rw [hc]
    refine ⟨_, rfl, fsFind_replace_self B hc, ?_, ?_, ?_⟩
    · intro q hq
      exact fsFind_replace_ne B hq
    · intro e he
      exact mem_replace he
    · intro e he hne
      rw [List.mem_map]
      exact ⟨e, he, by simp [hne]⟩

theorem except_bind_ok {ε α β : Type} {x : Except ε α} {f : α → Except ε β} {b : β}
    (h : (x >>= f) = Except.ok b) : ∃ a, x = Except.ok a ∧ f a = Except.ok b := by
  cases x with
  | error e =>
    simp only [Bind.bind, Except.bind] at h
    cases h
  | ok a =>
    refine ⟨a, rfl, ?_⟩
    simpa only [Bind.bind, Except.bind] using h

/-- The listing filter the source loops implement per entry: keep an entry
    iff its resolved stat is a regular file. -/
def listFilter (fs : Fs) (base : FPath) (n : String) : Option (String × Nat) :=
  match statNode fs (joinP base n) with
  | some nd => if isReg nd then some (n, nodeSize nd) else none
  | none => none

theorem regEntry_fold {fs : Fs} {base : FPath} :
    ∀ (names : List String) (acc r : List (String × Nat)),
      names.foldlM (regEntry fs base) acc = Except.ok r →
      r = acc ++ names.filterMap (listFilter fs base) ∧
      ∀ n ∈ names, (statNode fs (joinP base n)).isSome := by
  intro names
  induction names with
  | nil =>
    intro acc r h
    simp only [List.foldlM_nil, pure, Except.pure] at h
    cases h
    simp
  | cons n ns ih =>
    intro acc r h
    rw [List.foldlM_cons] at h
    obtain ⟨a, ha, hrest⟩ := except_bind_ok h
    unfold regEntry at ha
    cases hst : statNode fs (joinP base n) with
    | none => rw [hst] at ha; cases ha
    | some nd =>
      rw [hst] at ha
      have ha2 : a = if isReg nd then acc ++ [(n, nodeSize nd)] else acc := by
        cases ha; rfl
      obtain ⟨hr, hall⟩ := ih a r hrest
      constructor
      · rw [hr, ha2]
        by_cases hreg : isReg nd
        · rw [if_pos hreg]
          rw [List.filterMap_cons]
          simp only [listFilter, hst, if_pos hreg]
          simp
        · rw [if_neg hreg]
          rw [List.filterMap_cons]
          simp only [listFilter, hst]
          rw [if_neg hreg]
      · intro m hm
        rcases List.mem_cons.mp hm with h1 | h2
        · rw [h1, hst]; rfl
        · exact hall m h2

theorem data_fold {fs : Fs} {full : FPath} :
    ∀ (folders : List String) (acc r : List (String × Nat)),
      folders.foldlM (fun acc folder => do
          let names ← listdir fs (joinP full folder)
          names.foldlM (regEntry fs (joinP full folder)) acc) acc = Except.ok r →
      r = acc ++ folders.flatMap (fun folder =>
          match listdir fs (joinP full folder) with
          | Except.ok names => names.filterMap (listFilter fs (joinP full folder))
          | Except.error _ => []) ∧
      ∀ folder ∈ folders, ∃ names, listdir fs (joinP full folder) = Except.ok names := by
  intro folders
  induction folders with
  | nil =>
    intro acc r h
    simp only [List.foldlM_nil, pure, Except.pure] at h
    cases h
    simp
  | cons fo fos ih =>
    intro acc r h
    rw [List.foldlM_cons] at h
    obtain ⟨a, ha, hrest⟩ := except_bind_ok h
    obtain ⟨names, hnames, hinner⟩ := except_bind_ok ha
    obtain ⟨hr, hall⟩ := ih a r hrest
    obtain ⟨hinner_eq, _⟩ := regEntry_fold names acc a hinner
    constructor
    · rw [hr, hinner_eq, List.flatMap_cons, hnames]
      simp
    · intro f hf
      rcases List.mem_cons.mp hf with h1 | h2
      · exact ⟨names, h1 ▸ hnames⟩
      · exact hall f h2

/- ### Helper lemmas: the PATH_RE matcher -/

theorem findSome?_cons_of_some {α β : Type} {f : α → Option β} {x : α} {xs : List α} {v : β}
    (h : f x = some v) : (x :: xs).findSome? f = some v := by
  rw [List.findSome?_cons, h]

theorem nonSlashRun_append_slash (a b : List Char) (h : ∀ c ∈ a, c ≠ '/') :
    nonSlashRun (a ++ '/' :: b) = a := by
  induction a with
  | nil => simp [nonSlashRun, List.takeWhile_cons]
  | cons x xs ih =>
    have hx : x ≠ '/' := h x (by simp)
    unfold nonSlashRun at ih ⊢
    rw [List.cons_append, List.takeWhile_cons]
    have hbx : (x != '/') = true := by simp [hx]
    rw [hbx, if_pos rfl, ih (fun c hc => h c (by simp [hc]))]

theorem nonSlashRun_all (b : List Char) (h : ∀ c ∈ b, c ≠ '/') :
    nonSlashRun b = b := by
  unfold nonSlashRun
  rw [List.takeWhile_eq_self_iff]
  intro x hx
  simp [h x hx]

theorem plusSplits_cons_slash (a b : List Char) (ha : a ≠ []) (hsa : ∀ c ∈ a, c ≠ '/') :
    ∃ rest, plusSplits (a ++ '/' :: b) = (a, '/' :: b) :: rest := by
  unfold plusSplits
  simp only [nonSlashRun_append_slash a b hsa]
  obtain ⟨k, hk⟩ : ∃ k, a.length = k + 1 := by
    cases a with
    | nil => exact absurd rfl ha
    | cons x xs => exact ⟨xs.length, by simp⟩
  rw [hk, List.range_succ_eq_map, List.map_cons]
  refine ⟨List.map (fun i => (List.take (k + 1 - i) (a ++ '/' :: b),
    List.drop (k + 1 - i) (a ++ '/' :: b))) (List.map Nat.succ (List.range k)), ?_⟩
  have hhead : (List.take (k + 1 - 0) (a ++ '/' :: b), List.drop (k + 1 - 0) (a ++ '/' :: b))
      = (a, '/' :: b) := by
    rw [Nat.sub_zero, ← hk, List.take_left, List.drop_left]
  rw [hhead]

theorem plusSplits_no_slash (b : List Char) (hb : b ≠ []) (hsb : ∀ c ∈ b, c ≠ '/') :
    ∃ rest, plusSplits b = (b, []) :: rest := by
  unfold plusSplits
  simp only [nonSlashRun_all b hsb]
  obtain ⟨k, hk⟩ : ∃ k, b.length = k + 1 := by
    cases b with
    | nil => exact absurd rfl hb
    | cons x xs => exact ⟨xs.length, by simp⟩
  rw [hk, List.range_succ_eq_map, List.map_cons]
  refine ⟨List.map (fun i => (List.take (k + 1 - i) b, List.drop (k + 1 - i) b))
    (List.map Nat.succ (List.range k)), ?_⟩
  have hhead : (List.take (k + 1 - 0) b, List.drop (k + 1 - 0) b) = (b, []) := by
    rw [Nat.sub_zero, ← hk, List.take_length, List.drop_length]
  rw [hhead]

theorem tryType_no_tok (b : List Char)
    (h : ∀ tok ∈ RESTIC_TYPES, dropLit tok.data b = none) :
    tryType b = [(none, b)] := by
  unfold tryType
  have hnil : RESTIC_TYPES.filterMap (fun tok =>
      match dropLit tok.data b with
      | some rest => some ((some tok : Option String), rest)
      | none => none) = [] := by
    rw [List.filterMap_eq_nil]
    intro tok htok
    rw [h tok htok]
  rw [hnil, List.nil_append]

theorem tryOptSlash_no_slash (b : List Char) (h : ∀ c ∈ b, c ≠ '/') :
    tryOptSlash b = [b] := by
  cases b with
  | nil => rfl
  | cons x xs =>
    have hx : x ≠ '/' := h x (by simp)
    unfold tryOptSlash
    split
    · rename_i heq
      injection heq with h1 h2
      exact absurd h1 hx
    · rfl

/-- `PATH_RE` on a two-segment path `/a/b` where the second segment does
    not begin with any blob-type token: the match succeeds with `path = a`,
    no `type` group, and `name = b`. -/
theorem pathReMatch_two_seg (a b : List Char) (ha : a ≠ []) (hb : b ≠ [])
    (hsa : ∀ c ∈ a, c ≠ '/') (hsb : ∀ c ∈ b, c ≠ '/')
    (htok : ∀ tok ∈ RESTIC_TYPES, dropLit tok.data b = none) :
    pathReMatch (String.mk ('/' :: (a ++ '/' :: b)))
      = some (String.mk a, none, some (String.mk b)) := by
  obtain ⟨rest, hrest⟩ := plusSplits_cons_slash a b ha hsa
  obtain ⟨rest2, hrest2⟩ := plusSplits_no_slash b hb hsb
  have htt := tryType_no_tok b htok
  have hos := tryOptSlash_no_slash b hsb
  have h0 : (String.mk ('/' :: (a ++ '/' :: b))).data = '/' :: (a ++ '/' :: b) := rfl
  have h1 : tryOptSlash ('/' :: (a ++ '/' :: b)) = [a ++ '/' :: b, '/' :: (a ++ '/' :: b)] := rfl
  have h2 : tryOptSlash ('/' :: b) = [b, '/' :: b] := rfl
  unfold pathReMatch
  rw [h0, h1]
  apply findSome?_cons_of_some
  try simp only []
  rw [hrest]
  apply findSome?_cons_of_some
  try simp only []
  rw [h2]
  apply findSome?_cons_of_some
  try simp only []
  rw [htt]
  apply findSome?_cons_of_some
  try simp only []
  rw [hos]
  apply findSome?_cons_of_some
  try simp only []
  unfold tryOptName
  rw [hrest2]
  rw [List.map_cons, List.cons_append]
  apply findSome?_cons_of_some
  rfl

/- ### Claim C2 -/

/-- C2, counterexample: the raw two-segment path `/repo/foo`, whose second
    segment is none of the six blob-type tokens, is NOT signalled as
    unparseable: `get_path` returns `foo` as the blob name with an absent
    type. -/
theorem c2_counterexample :
    get_path "/repo/foo" = (some "repo", none, some "foo") ∧
    get_path "/repo/foo" ≠ (none, none, none) := by
  constructor
  · rfl
  · decide

/-- C2 (amended): for every raw resource path of the form `/a/b` (two
    segments, both non-empty and slash-free) where segment `b` does not
    begin with any of the six blob-type tokens, the path parser does NOT
    signal the path as unparseable: it parses it as repository `a` with an
    absent type and blob name `b`.  (When `b` merely begins with a type
    token, the token is split off as the type and the rest becomes the
    name.) -/
theorem c2_two_segment_parse (a b : List Char) (ha : a ≠ []) (hb : b ≠ [])
    (hsa : ∀ c ∈ a, c ≠ '/') (hsb : ∀ c ∈ b, c ≠ '/')
    (htok : ∀ tok ∈ RESTIC_TYPES, dropLit tok.data b = none) :
    get_path (String.mk ('/' :: (a ++ '/' :: b)))
      = (some (String.mk a), none, some (String.mk b)) := by
  unfold get_path
  rw [pathReMatch_two_seg a b ha hb hsa hsb htok]

theorem c2_two_segment_parse_witness :
    get_path (String.mk ('/' :: ("repo".data ++ '/' :: "foo".data)))
      = (some (String.mk "repo".data), none, some (String.mk "foo".data)) :=
  c2_two_segment_parse "repo".data "foo".data (by decide) (by decide)
    (by decide) (by decide) (by decide)

/- ### Claim C3 -/

/-- C3, counterexample: a Range header with `end = 0` (`bytes=0-0` on a
    4-byte blob).  The claim demands a declared length of
    `end - start + 1 = 1`; the code instead declares `total_size - start = 4`
    (Python's `if end` is false for the integer 0) and streams the whole
    blob. -/
theorem c3_counterexample :
    get_path_data ["srv"] ⟨"GET", "/r/keys/n", [], some "bytes=0-0", []⟩ "r" "keys" "n"
      [(["srv"], Node.dir), (["srv", "r"], Node.dir), (["srv", "r", "keys"], Node.dir),
       (["srv", "r", "keys", "n"], Node.file [10, 20, 30, 40])]
      = Except.ok ([Ev.sr "206 PARTIAL_CONTENT"
          [("Content-Type", "binary/octet-stream"), ("Content-Length", "4"),
           ("Content-Range", "bytes=0-")],
          Ev.chunk [10, 20, 30, 40]],
         [(["srv"], Node.dir), (["srv", "r"], Node.dir), (["srv", "r", "keys"], Node.dir),
          (["srv", "r", "keys", "n"], Node.file [10, 20, 30, 40])]) ∧
    ("4" : String) ≠ "1" := by
  constructor
  · rfl
  · decide

/-- C3 (amended): for every Range header that parses to a start offset and,
    optionally, an end offset, the declared response length is
    `end - start + 1` when a NONZERO end offset is given, and
    `total_size - start` when the end offset is absent OR equal to 0 (the
    source tests the converted integer with `if end`, which is false for 0). -/
theorem c3_range_length_formula (root : FPath) (env : Env) (path rtype name : String)
    (fs : Fs) (c : Bytes) (s : String) (start : Nat) (endOpt : Option Nat)
    (hstat : statNode fs (if rtype = "data"
        then joinP (joinP (joinP (joinP root path) rtype) (strTake2 name)) name
        else joinP (joinP (joinP root path) rtype) name) = some (Node.file c))
    (hr : env.httpRange = some s) (hne : s ≠ "") (hp : parseRange s = some (start, endOpt)) :
    get_path_data root env path rtype name fs =
      Except.ok ([Ev.sr (HTTP_RESPONSES 206)
        [("Content-Type", "binary/octet-stream"),
         ("Content-Length", toString (match endOpt with
            | some e => if e ≠ 0 then (e : Int) - (start : Int) + 1
                        else (c.length : Int) - (start : Int)
            | none => (c.length : Int) - (start : Int))),
         ("Content-Range", "bytes=" ++ toString start ++ "-" ++ rangeEndStr endOpt)]] ++
        (rangeChunks c start 0 (match endOpt with
            | some e => if e ≠ 0 then (e : Int) - (start : Int) + 1
                        else (c.length : Int) - (start : Int)
            | none => (c.length : Int) - (start : Int))).map Ev.chunk, fs) := by
  unfold get_path_data
  cases endOpt with
  | none => simp only [hstat, hr, if_neg hne, hp, nodeSize]
  | some e => simp only [hstat, hr, if_neg hne, hp, nodeSize]

theorem c3_range_length_formula_witness :
    get_path_data ["srv"] ⟨"GET", "/r/keys/n", [], some "bytes=1-2", []⟩ "r" "keys" "n"
      [(["srv"], Node.dir), (["srv", "r"], Node.dir), (["srv", "r", "keys"], Node.dir),
       (["srv", "r", "keys", "n"], Node.file [10, 20, 30, 40])]
      = Except.ok ([Ev.sr (HTTP_RESPONSES 206)
          [("Content-Type", "binary/octet-stream"),
           ("Content-Length", toString (match (some 2 : Option Nat) with
              | some e => if e ≠ 0 then (e : Int) - (1 : Int) + 1
                          else (([10, 20, 30, 40] : Bytes).length : Int) - (1 : Int)
              | none => (([10, 20, 30, 40] : Bytes).length : Int) - (1 : Int))),
           ("Content-Range", "bytes=" ++ toString 1 ++ "-" ++ rangeEndStr (some 2))]] ++
          (rangeChunks [10, 20, 30, 40] 1 0 (match (some 2 : Option Nat) with
              | some e => if e ≠ 0 then (e : Int) - (1 : Int) + 1
                          else (([10, 20, 30, 40] : Bytes).length : Int) - (1 : Int)
              | none => (([10, 20, 30, 40] : Bytes).length : Int) - (1 : Int))).map Ev.chunk,
         [(["srv"], Node.dir), (["srv", "r"], Node.dir), (["srv", "r", "keys"], Node.dir),
          (["srv", "r", "keys", "n"], Node.file [10, 20, 30, 40])]) :=
  c3_range_length_formula ["srv"] ⟨"GET", "/r/keys/n", [], some "bytes=1-2", []⟩ "r" "keys" "n"
    _ [10, 20, 30, 40] "bytes=1-2" 1 (some 2) (by decide) rfl (by decide) (by decide)

/- ### Claim C9 -/

/-- C9: absence of a requested resource maps to 404 for named-blob
    existence/read checks but to 500 for config- and repository-level
    absence, with the exact bodies the source sends: `get_path_check` and
    `get_path_data` answer 404 `Requested path data does not exist.`;
    `config_exists` and `get_config` answer 500 `Configuration does not
    exist.`; `delete_repository` answers 500 `Repository does not exist.`;
    `delete_path_data` answers 500 `Path data does not exist.`. -/
theorem c9_absence_status_mapping (root : FPath) (repo rtype name : String) (fs : Fs) (env : Env)
    (hblob : statNode fs (if rtype = "data"
        then joinP (joinP (joinP (joinP root repo) rtype) (strTake2 name)) name
        else joinP (joinP (joinP root repo) rtype) name) = none)
    (hconf : statNode fs (joinP (joinP root repo) "config") = none)
    (hrepo : statNode fs (joinP root repo) = none) :
    get_path_check root repo rtype name fs
      = Except.ok ([Ev.sr (HTTP_RESPONSES 404) [("Content-Type", "text/plain")],
          Ev.chunk (utf8 "Requested path data does not exist.")], fs) ∧
    get_path_data root env repo rtype name fs
      = Except.ok ([Ev.sr (HTTP_RESPONSES 404) [("Content-Type", "text/plain")],
          Ev.chunk (utf8 "Requested path data does not exist.")], fs) ∧
    config_exists root repo fs
      = Except.ok ([Ev.sr (HTTP_RESPONSES 500) [("Content-Type", "text/plain")],
          Ev.chunk (utf8 "Configuration does not exist.")], fs) ∧
    get_config root repo fs
      = Except.ok ([Ev.sr (HTTP_RESPONSES 500) [("Content-Type", "text/plain")],
          Ev.chunk (utf8 "Configuration does not exist.")], fs) ∧
    delete_repository root repo fs
      = Except.ok ([Ev.sr (HTTP_RESPONSES 500) [("Content-Type", "text/plain")],
          Ev.chunk (utf8 "Repository does not exist.")], fs) ∧
    delete_path_data root repo rtype name fs
      = Except.ok ([Ev.sr (HTTP_RESPONSES 500) [("Content-Type", "text/plain")],
          Ev.chunk (utf8 "Path data does not exist.")], fs) := by
  have hexb : pathExists fs (if rtype = "data"
      then joinP (joinP (joinP (joinP root repo) rtype) (strTake2 name)) name
      else joinP (joinP (joinP root repo) rtype) name) = false := by
    simp [pathExists, hblob]
  have hexr : pathExists fs (joinP root repo) = false := by
    simp [pathExists, hrepo]
  refine ⟨?_, ?_, ?_, ?_, ?_, ?_⟩
  · unfold get_path_check
    simp only [hblob]
    rfl
  · unfold get_path_data
    simp only [hblob]
    rfl
  · unfold config_exists
    simp only [hconf]
    rfl
  · unfold get_config
    simp only [hconf]
    rfl
  · unfold delete_repository
    simp only [hexr, Bool.false_eq_true, if_false]
    rfl
  · unfold delete_path_data
    simp only [hexb, Bool.false_eq_true, if_false]
    rfl

theorem c9_absence_status_mapping_witness :
    get_path_check ["srv"] "r" "keys" "n" [(["srv"], Node.dir)]
      = Except.ok ([Ev.sr (HTTP_RESPONSES 404) [("Content-Type", "text/plain")],
          Ev.chunk (utf8 "Requested path data does not exist.")],
          [(["srv"], Node.dir)]) ∧
    get_path_data ["srv"] ⟨"GET", "/r/keys/n", [], none, []⟩ "r" "keys" "n"
        [(["srv"], Node.dir)]
      = Except.ok ([Ev.sr (HTTP_RESPONSES 404) [("Content-Type", "text/plain")],
          Ev.chunk (utf8 "Requested path data does not exist.")],
          [(["srv"], Node.dir)]) ∧
    config_exists ["srv"] "r" [(["srv"], Node.dir)]
      = Except.ok ([Ev.sr (HTTP_RESPONSES 500) [("Content-Type", "text/plain")],
          Ev.chunk (utf8 "Configuration does not exist.")],
          [(["srv"], Node.dir)]) ∧
    get_config ["srv"] "r" [(["srv"], Node.dir)]
      = Except.ok ([Ev.sr (HTTP_RESPONSES 500) [("Content-Type", "text/plain")],
          Ev.chunk (utf8 "Configuration does not exist.")],
          [(["srv"], Node.dir)]) ∧
    delete_repository ["srv"] "r" [(["srv"], Node.dir)]
      = Except.ok ([Ev.sr (HTTP_RESPONSES 500) [("Content-Type", "text/plain")],
          Ev.chunk (utf8 "Repository does not exist.")],
          [(["srv"], Node.dir)]) ∧
    delete_path_data ["srv"] "r" "keys" "n" [(["srv"], Node.dir)]
      = Except.ok ([Ev.sr (HTTP_RESPONSES 500) [("Content-Type", "text/plain")],
          Ev.chunk (utf8 "Path data does not exist.")],
          [(["srv"], Node.dir)]) := by
  have h := c9_absence_status_mapping ["srv"] "r" "keys" "n"
    [(["srv"], Node.dir)]
    ⟨"GET", "/r/keys/n", [], none, []⟩ (by decide) (by decide) (by decide)
  exact h

/- ### Claim C10 -/

/-- C10: for GET, POST and HEAD, a parsed triple `(repo, config, name)`
    with a trailing name present dispatches to exactly the same config-file
    operation as `(repo, config, no name)`: the name is ignored for
    config-typed paths under these three methods. -/
theorem c10_config_name_ignored (root : FPath) (env : Env) (repo nm : String)
    (hm : env.requestMethod = "GET" ∨ env.requestMethod = "POST" ∨ env.requestMethod = "HEAD") :
    dispatchTriple root env (some repo, some "config", some nm)
      = dispatchTriple root env (some repo, some "config", none) := by
  unfold dispatchTriple
  rcases hm with h | h | h <;> rw [h] <;>
    cases hc : env.queryCreate.contains "true" <;>
    simp only [hc] <;> rfl

theorem c10_config_name_ignored_witness :
    dispatchTriple ["srv"] ⟨"GET", "/r/config/x", [], none, []⟩ (some "r", some "config", some "x")
      = dispatchTriple ["srv"] ⟨"GET", "/r/config/x", [], none, []⟩ (some "r", some "config", none) :=
  c10_config_name_ignored ["srv"] ⟨"GET", "/r/config/x", [], none, []⟩ "r" "x" (Or.inl rfl)

/- ### Claim C1 -/

/-- C1, counterexample: listing a type directory of a repository that does
    not exist on disk (`GET /r0/keys` with only the storage root present)
    is NOT caught by the dispatcher: the fault is raised inside the handler
    generator, after `__iter__`'s try/except has already returned, so the
    request propagates a raw fault instead of a generic 500 response. -/
theorem c1_counterexample :
    serve ["srv"] ⟨"GET", "/r0/keys", [], none, []⟩ [(["srv"], Node.dir)]
      = Except.error "FileNotFoundError" := by rfl

/-- C1 (amended): every request whose (method, resource shape) pair falls
    outside the dispatch matrix is answered 500 with a generic diagnostic
    body (`Not Implemented`, or `Unsupported request method.` for an
    unknown method); the routing phase itself never propagates a fault.
    Faults raised inside a handler's streaming body, however, escape the
    dispatcher (see the counterexample). -/
theorem c1_unmatched_request_500 (root : FPath) (env : Env) (fs : Fs)
    (p t n : Option String)
    (hp : get_path env.pathInfo = (p, t, n))
    (hu : specUnmatched env.requestMethod (env.queryCreate.contains "true") p t n = true) :
    ∃ msg, (msg = "Not Implemented" ∨ msg = "Unsupported request method.") ∧
      serve root env fs = Except.ok ([Ev.sr (HTTP_RESPONSES 500) [("Content-Type", "text/plain")],
        Ev.chunk (utf8 msg)], fs) := by
  unfold serve iterGen
  rw [hp]
  by_cases hG : env.requestMethod = "GET"
  · refine ⟨"Not Implemented", Or.inl rfl, ?_⟩
    rw [hG] at hu
    have hd : dispatchTriple root env (p, t, n) = Except.ok (yield_error "Not Implemented") := by
      unfold dispatchTriple
      rw [hG, if_pos rfl]
      split
      · exfalso; unfold specUnmatched at hu; simp_all
      · exfalso; unfold specUnmatched at hu; simp_all
      · exfalso; unfold specUnmatched at hu; simp_all
      · rfl
    rw [hd]
    rfl
  · by_cases hP : env.requestMethod = "POST"
    · refine ⟨"Not Implemented", Or.inl rfl, ?_⟩
      rw [hP] at hu
      have hd : dispatchTriple root env (p, t, n) = Except.ok (yield_error "Not Implemented") := by
        unfold dispatchTriple
        rw [if_neg hG, if_pos hP]
        split
        · exfalso; unfold specUnmatched at hu; simp_all
        · split
          · exfalso; unfold specUnmatched at hu; simp_all
          · exfalso; unfold specUnmatched at hu; simp_all
          · rfl
      rw [hd]
      rfl
    · by_cases hD : env.requestMethod = "DELETE"
      · refine ⟨"Not Implemented", Or.inl rfl, ?_⟩
        rw [hD] at hu
        have hd : dispatchTriple root env (p, t, n) = Except.ok (yield_error "Not Implemented") := by
          unfold dispatchTriple
          rw [if_neg hG, if_neg hP, if_pos hD]
          split
          · exfalso; unfold specUnmatched at hu; simp_all
          · exfalso; unfold specUnmatched at hu; simp_all
          · rfl
        rw [hd]
        rfl
      · by_cases hH : env.requestMethod = "HEAD"
        · refine ⟨"Not Implemented", Or.inl rfl, ?_⟩
          rw [hH] at hu
          have hd : dispatchTriple root env (p, t, n) = Except.ok (yield_error "Not Implemented") := by
            unfold dispatchTriple
            rw [if_neg hG, if_neg hP, if_neg hD, if_pos hH]
            split
            · exfalso; unfold specUnmatched at hu; simp_all
            · exfalso; unfold specUnmatched at hu; simp_all
            · rfl
          rw [hd]
          rfl
        · refine ⟨"Unsupported request method.", Or.inr rfl, ?_⟩
          have hd : dispatchTriple root env (p, t, n)
              = Except.ok (yield_error "Unsupported request method.") := by
            unfold dispatchTriple
            rw [if_neg hG, if_neg hP, if_neg hD, if_neg hH]
          rw [hd]
          rfl

theorem c1_unmatched_request_500_witness :
    get_path "/x" = (some "x", none, none) ∧
    specUnmatched "PUT" (([] : List String).contains "true") (some "x") none none = true ∧
    ∃ msg, (msg = "Not Implemented" ∨ msg = "Unsupported request method.") ∧
      serve [] ⟨"PUT", "/x", [], none, []⟩ []
        = Except.ok ([Ev.sr (HTTP_RESPONSES 500) [("Content-Type", "text/plain")],
          Ev.chunk (utf8 msg)], []) :=
  ⟨rfl, by decide,
   c1_unmatched_request_500 [] ⟨"PUT", "/x", [], none, []⟩ [] (some "x") none none rfl (by decide)⟩

/- ### Claim C7 -/

/-- C7, counterexample: a symlink in the `keys` type directory whose target
    is a regular file is NOT skipped by the listing: `os.stat` follows the
    link and `S_ISREG` reports the target, so the entry appears in the
    result. -/
theorem c7_counterexample :
    path_list_results ["srv"]
      [(["srv"], Node.dir), (["srv", "r"], Node.dir), (["srv", "r", "keys"], Node.dir),
       (["srv", "r", "keys", "s"], Node.symlink ["srv", "tgt"]),
       (["srv", "tgt"], Node.file [1, 2, 3])]
      "r" "keys" = Except.ok [("s", 3)] ∧
    fsFind [(["srv"], Node.dir), (["srv", "r"], Node.dir), (["srv", "r", "keys"], Node.dir),
       (["srv", "r", "keys", "s"], Node.symlink ["srv", "tgt"]),
       (["srv", "tgt"], Node.file [1, 2, 3])] ["srv", "r", "keys", "s"]
      = some (Node.symlink ["srv", "tgt"]) := by
  constructor
  · rfl
  · rfl

/-- C7 (amended): for every listable blob type, a successful listing
    reports exactly the entries whose RESOLVED stat is a regular file:
    plain regular files and symlinks resolving to regular files are
    included; directories and symlinks resolving to anything else are
    skipped (and an entry whose stat fails aborts the listing with a
    fault).  For `data` the same filter is applied inside each shard
    subdirectory. -/
theorem c7_listing_filter (root : FPath) (path rtype : String) (fs : Fs) :
    (rtype ≠ "data" → ∀ rs, path_list_results root fs path rtype = Except.ok rs →
      ∃ names, listdir fs (joinP (joinP root path) rtype) = Except.ok names ∧
        rs = names.filterMap (listFilter fs (joinP (joinP root path) rtype))) ∧
    (rtype = "data" → ∀ rs, path_list_results root fs path rtype = Except.ok rs →
      ∃ folders, listdir fs (joinP (joinP root path) rtype) = Except.ok folders ∧
        rs = folders.flatMap (fun folder =>
          match listdir fs (joinP (joinP (joinP root path) rtype) folder) with
          | Except.ok names =>
              names.filterMap (listFilter fs (joinP (joinP (joinP root path) rtype) folder))
          | Except.error _ => []) ∧
        ∀ folder ∈ folders,
          ∃ names, listdir fs (joinP (joinP (joinP root path) rtype) folder) = Except.ok names) := by
  constructor
  · intro hne rs hok
    unfold path_list_results at hok
    rw [if_neg hne] at hok
    obtain ⟨names, hnames, hfold⟩ := except_bind_ok hok
    obtain ⟨hr, _⟩ := regEntry_fold names [] rs hfold
    exact ⟨names, hnames, by simpa using hr⟩
  · intro heq rs hok
    unfold path_list_results at hok
    rw [if_pos heq] at hok
    obtain ⟨folders, hfolders, hfold⟩ := except_bind_ok hok
    obtain ⟨hr, hall⟩ := data_fold folders [] rs hfold
    exact ⟨folders, hfolders, by simpa using hr, hall⟩

theorem c7_listing_filter_witness :
    ∃ names, listdir [(["srv"], Node.dir), (["srv", "r"], Node.dir),
        (["srv", "r", "keys"], Node.dir),
        (["srv", "r", "keys", "s"], Node.symlink ["srv", "tgt"]),
        (["srv", "tgt"], Node.file [1, 2, 3])]
        (joinP (joinP ["srv"] "r") "keys") = Except.ok names ∧
      [("s", 3)] = names.filterMap (listFilter
        [(["srv"], Node.dir), (["srv", "r"], Node.dir), (["srv", "r", "keys"], Node.dir),
         (["srv", "r", "keys", "s"], Node.symlink ["srv", "tgt"]),
         (["srv", "tgt"], Node.file [1, 2, 3])]
        (joinP (joinP ["srv"] "r") "keys")) :=
  (c7_listing_filter ["srv"] "r" "keys"
    [(["srv"], Node.dir), (["srv", "r"], Node.dir), (["srv", "r", "keys"], Node.dir),
     (["srv", "r", "keys", "s"], Node.symlink ["srv", "tgt"]),
     (["srv", "tgt"], Node.file [1, 2, 3])]).1 (by decide) [("s", 3)] (by rfl)

/- ### Claim C8 -/

/-- C8: evaluation of `POST /r0?create=true` at the failing input (the
    storage root directory itself is absent, so `os.mkdir` fails).  The
    source's except branch lacks a `return`: the generator yields the 500
    failure response AND then falls through to `start_response(200)` plus
    an empty chunk -- two start_response events in one response, instead of
    the single 500 failure response the claim (and the function's own
    docstring) describe. -/
theorem c8_create_failure_trace :
    serve ["srv"] ⟨"POST", "/r0", ["true"], none, []⟩ []
      = Except.ok ([Ev.sr (HTTP_RESPONSES 500) [("Content-Type", "text/plain")],
          Ev.chunk (utf8 "Failed to create repository."),
          Ev.sr (HTTP_RESPONSES 200) [], Ev.chunk []], []) := by rfl

/- ### Claim C4 -/

theorem dropLit_self (l cs : List Char) : dropLit l (l ++ cs) = some cs := by
  induction l with
  | nil => rfl
  | cons x xs ih => simp [dropLit, ih]

/-- C4, counterexample: for a 3-byte blob, `Range: bytes=15-` still answers
    206 with body `C[15:]` (empty), but the declared Content-Length is
    `total_size - start = -12`, not the remaining length 0 the claim
    demands. -/
theorem c4_counterexample :
    get_path_data ["srv"] ⟨"GET", "/r/keys/n", [], some "bytes=15-", []⟩ "r" "keys" "n"
      [(["srv"], Node.dir), (["srv", "r"], Node.dir), (["srv", "r", "keys"], Node.dir),
       (["srv", "r", "keys", "n"], Node.file [97, 98, 99])]
      = Except.ok ([Ev.sr "206 PARTIAL_CONTENT"
          [("Content-Type", "binary/octet-stream"), ("Content-Length", "-12"),
           ("Content-Range", "bytes=15-")]],
         [(["srv"], Node.dir), (["srv", "r"], Node.dir), (["srv", "r", "keys"], Node.dir),
          (["srv", "r", "keys", "n"], Node.file [97, 98, 99])]) ∧
    ("-12" : String) ≠ toString (List.length (List.drop 15 ([97, 98, 99] : Bytes))) := by
  constructor
  · rfl
  · decide

/-- C4 (amended): for every existing blob with content C, `Range: bytes=15-`
    answers 206 with body exactly `C[15:]` and a declared Content-Length of
    `|C| - 15` computed as an integer (this equals the remaining length
    whenever `|C| >= 15`, and is negative for shorter blobs);
    `Range: bytes=5-10` answers 206 with body exactly `C[5:11]`; an absent,
    empty, or unparseable Range header answers 200 with the full content;
    and the suffix form `bytes=-N` never parses, so it falls into the
    full-200 case. -/
theorem c4_range_read_correctness (root : FPath) (path rtype name : String) (fs : Fs) (c : Bytes)
    (hstat : statNode fs (if rtype = "data"
        then joinP (joinP (joinP (joinP root path) rtype) (strTake2 name)) name
        else joinP (joinP (joinP root path) rtype) name) = some (Node.file c)) :
    (∀ env : Env, env.httpRange = some "bytes=15-" →
      get_path_data root env path rtype name fs
        = Except.ok ([Ev.sr (HTTP_RESPONSES 206)
            [("Content-Type", "binary/octet-stream"),
             ("Content-Length", toString ((c.length : Int) - 15)),
             ("Content-Range", "bytes=15-")]] ++
            (rangeChunks c 15 0 ((c.length : Int) - 15)).map Ev.chunk, fs) ∧
      flattenChunks (rangeChunks c 15 0 ((c.length : Int) - 15)) = c.drop 15) ∧
    (∀ env : Env, env.httpRange = some "bytes=5-10" →
      get_path_data root env path rtype name fs
        = Except.ok ([Ev.sr (HTTP_RESPONSES 206)
            [("Content-Type", "binary/octet-stream"),
             ("Content-Length", toString ((10 : Int) - 5 + 1)),
             ("Content-Range", "bytes=5-10")]] ++
            (rangeChunks c 5 0 ((10 : Int) - 5 + 1)).map Ev.chunk, fs) ∧
      flattenChunks (rangeChunks c 5 0 ((10 : Int) - 5 + 1)) = (c.drop 5).take 6) ∧
    (∀ env : Env,
      (env.httpRange = none ∨ ∃ s, env.httpRange = some s ∧ (s = "" ∨ parseRange s = none)) →
      get_path_data root env path rtype name fs
        = Except.ok ([Ev.sr (HTTP_RESPONSES 200)
            [("Content-Type", "binary/octet-stream"),
             ("Content-Length", toString c.length)]] ++ (fullChunks c 0).map Ev.chunk, fs) ∧
      flattenChunks (fullChunks c 0) = c) ∧
    (∀ t : String, parseRange (String.mk ("bytes=-".data ++ t.data)) = none) := by
  refine ⟨?_, ?_, ?_, ?_⟩
  · intro env hr
    constructor
    · have hpr : parseRange "bytes=15-" = some (15, none) := rfl
      unfold get_path_data
      simp only [hstat, hr, nodeSize]
      rw [if_neg (by decide : ¬(("bytes=15-" : String) = ""))]
      rw [hpr]
      rfl
    · unfold rangeChunks
      rw [rangeChunksF_flatten (c.length + 1) c 15 0 _ (by omega)]
      have h1 : (((c.length : Int) - 15) - ((0 : Nat) : Int)).toNat = c.length - 15 := by omega
      rw [h1]
      exact List.take_of_length_le (by rw [List.length_drop])
  · intro env hr
    constructor
    · have hpr : parseRange "bytes=5-10" = some (5, some 10) := rfl
      unfold get_path_data
      simp only [hstat, hr, nodeSize]
      rw [if_neg (by decide : ¬(("bytes=5-10" : String) = ""))]
      rw [hpr]
      rfl
    · unfold rangeChunks
      rw [rangeChunksF_flatten (c.length + 1) c 5 0 _ (by omega)]
      have h1 : (((10 : Int) - 5 + 1) - ((0 : Nat) : Int)).toNat = 6 := by omega
      rw [h1]
  · intro env hr
    have hfull : flattenChunks (fullChunks c 0) = c := fullChunks_flatten c
    constructor
    · unfold get_path_data
      rcases hr with hr | ⟨s, hs, hcase⟩
      · simp only [hstat, hr, nodeSize]
      · rcases hcase with hemp | hbad
        · simp only [hstat, hs, hemp, nodeSize]
          simp
        · simp only [hstat, hs, nodeSize]
          by_cases hemp : s = ""
          · simp [hemp]
          · rw [if_neg hemp, hbad]
    · exact hfull
  · intro t
    have hdata : (String.mk ("bytes=-".data ++ t.data)).data
        = "bytes=".data ++ ('-' :: t.data) := rfl
    unfold parseRange
    rw [hdata, dropLit_self]
    have hdig : digitRun ('-' :: t.data) = [] := by
      simp [digitRun, List.takeWhile_cons]
    simp only [hdig]
    rfl

theorem c4_range_read_correctness_witness :
    (∀ env : Env, env.httpRange = some "bytes=15-" →
      get_path_data ["srv"] env "r" "keys" "n"
          [(["srv"], Node.dir), (["srv", "r"], Node.dir), (["srv", "r", "keys"], Node.dir),
           (["srv", "r", "keys", "n"],
            Node.file [0, 1, 2, 3, 4, 5, 6, 7, 8, 9, 10, 11, 12, 13, 14, 15, 16, 17])]
        = Except.ok ([Ev.sr (HTTP_RESPONSES 206)
            [("Content-Type", "binary/octet-stream"),
             ("Content-Length", toString ((([0, 1, 2, 3, 4, 5, 6, 7, 8, 9, 10, 11, 12, 13, 14,
                15, 16, 17] : Bytes).length : Int) - 15)),
             ("Content-Range", "bytes=15-")]] ++
            (rangeChunks [0, 1, 2, 3, 4, 5, 6, 7, 8, 9, 10, 11, 12, 13, 14, 15, 16, 17] 15 0
              ((([0, 1, 2, 3, 4, 5, 6, 7, 8, 9, 10, 11, 12, 13, 14, 15, 16, 17] : Bytes).length
                : Int) - 15)).map Ev.chunk,
           [(["srv"], Node.dir), (["srv", "r"], Node.dir), (["srv", "r", "keys"], Node.dir),
            (["srv", "r", "keys", "n"],
             Node.file [0, 1, 2, 3, 4, 5, 6, 7, 8, 9, 10, 11, 12, 13, 14, 15, 16, 17])]) ∧
      flattenChunks (rangeChunks [0, 1, 2, 3, 4, 5, 6, 7, 8, 9, 10, 11, 12, 13, 14, 15, 16, 17]
          15 0 ((([0, 1, 2, 3, 4, 5, 6, 7, 8, 9, 10, 11, 12, 13, 14, 15, 16, 17] : Bytes).length
            : Int) - 15))
        = ([0, 1, 2, 3, 4, 5, 6, 7, 8, 9, 10, 11, 12, 13, 14, 15, 16, 17] : Bytes).drop 15) ∧
    (∀ env : Env, env.httpRange = some "bytes=5-10" →
      get_path_data ["srv"] env "r" "keys" "n"
          [(["srv"], Node.dir), (["srv", "r"], Node.dir), (["srv", "r", "keys"], Node.dir),
           (["srv", "r", "keys", "n"],
            Node.file [0, 1, 2, 3, 4, 5, 6, 7, 8, 9, 10, 11, 12, 13, 14, 15, 16, 17])]
        = Except.ok ([Ev.sr (HTTP_RESPONSES 206)
            [("Content-Type", "binary/octet-stream"),
             ("Content-Length", toString ((10 : Int) - 5 + 1)),
             ("Content-Range", "bytes=5-10")]] ++
            (rangeChunks [0, 1, 2, 3, 4, 5, 6, 7, 8, 9, 10, 11, 12, 13, 14, 15, 16, 17] 5 0
              ((10 : Int) - 5 + 1)).map Ev.chunk,
           [(["srv"], Node.dir), (["srv", "r"], Node.dir), (["srv", "r", "keys"], Node.dir),
            (["srv", "r", "keys", "n"],
             Node.file [0, 1, 2, 3, 4, 5, 6, 7, 8, 9, 10, 11, 12, 13, 14, 15, 16, 17])]) ∧
      flattenChunks (rangeChunks [0, 1, 2, 3, 4, 5, 6, 7, 8, 9, 10, 11, 12, 13, 14, 15, 16, 17]
          5 0 ((10 : Int) - 5 + 1))
        = (([0, 1, 2, 3, 4, 5, 6, 7, 8, 9, 10, 11, 12, 13, 14, 15, 16, 17] : Bytes).drop 5).take 6) ∧
    (∀ env : Env,
      (env.httpRange = none ∨ ∃ s, env.httpRange = some s ∧ (s = "" ∨ parseRange s = none)) →
      get_path_data ["srv"] env "r" "keys" "n"
          [(["srv"], Node.dir), (["srv", "r"], Node.dir), (["srv", "r", "keys"], Node.dir),
           (["srv", "r", "keys", "n"],
            Node.file [0, 1, 2, 3, 4, 5, 6, 7, 8, 9, 10, 11, 12, 13, 14, 15, 16, 17])]
        = Except.ok ([Ev.sr (HTTP_RESPONSES 200)
            [("Content-Type", "binary/octet-stream"),
             ("Content-Length", toString ([0, 1, 2, 3, 4, 5, 6, 7, 8, 9, 10, 11, 12, 13, 14,
               15, 16, 17] : Bytes).length)]] ++
            (fullChunks [0, 1, 2, 3, 4, 5, 6, 7, 8, 9, 10, 11, 12, 13, 14, 15, 16, 17] 0).map
              Ev.chunk,
           [(["srv"], Node.dir), (["srv", "r"], Node.dir), (["srv", "r", "keys"], Node.dir),
            (["srv", "r", "keys", "n"],
             Node.file [0, 1, 2, 3, 4, 5, 6, 7, 8, 9, 10, 11, 12, 13, 14, 15, 16, 17])]) ∧
      flattenChunks (fullChunks [0, 1, 2, 3, 4, 5, 6, 7, 8, 9, 10, 11, 12, 13, 14, 15, 16, 17] 0)
        = [0, 1, 2, 3, 4, 5, 6, 7, 8, 9, 10, 11, 12, 13, 14, 15, 16, 17]) ∧
    (∀ t : String, parseRange (String.mk ("bytes=-".data ++ t.data)) = none) :=
  c4_range_read_correctness ["srv"] "r" "keys" "n"
    [(["srv"], Node.dir), (["srv", "r"], Node.dir), (["srv", "r", "keys"], Node.dir),
     (["srv", "r", "keys", "n"],
      Node.file [0, 1, 2, 3, 4, 5, 6, 7, 8, 9, 10, 11, 12, 13, 14, 15, 16, 17])]
    [0, 1, 2, 3, 4, 5, 6, 7, 8, 9, 10, 11, 12, 13, 14, 15, 16, 17] (by decide)

/- ### Helper lemmas: unlink and the sharded write -/

theorem fsFind_erase (fs : Fs) (p : FPath) :
    fsFind (fs.filter (fun e => !(decide (e.1 = p)))) p = none := by
  induction fs with
  | nil => rfl
  | cons e fs ih =>
    rw [List.filter_cons]
    by_cases he : e.1 = p
    · rw [if_neg (by simp [he])]
      exact ih
    · rw [if_pos (by simp [he])]
      rw [fsFind_cons_of_ne he]
      exact ih

/-- A successful `set_path_data` for type `data`: the blob lands at
    `root/repo/data/{name[0:2]}/{name}`, the shard directory exists
    afterwards, every new entry lies under the shard, and every other path
    is untouched. -/
theorem set_path_data_data_ok (root : FPath) (env : Env) (repo name : String) (fs : Fs)
    (hparent : fsFind fs (joinP (joinP root repo) "data") = some Node.dir)
    (hshard : (fsFind fs (joinP (joinP (joinP root repo) "data") (strTake2 name)) = none ∧
        fsFind fs (joinP (joinP (joinP (joinP root repo) "data") (strTake2 name)) name) = none) ∨
      (fsFind fs (joinP (joinP (joinP root repo) "data") (strTake2 name)) = some Node.dir ∧
        (fsFind fs (joinP (joinP (joinP (joinP root repo) "data") (strTake2 name)) name) = none ∨
         ∃ c0, fsFind fs (joinP (joinP (joinP (joinP root repo) "data") (strTake2 name)) name)
            = some (Node.file c0)))) :
    ∃ fs2, set_path_data root env repo "data" name fs
        = Except.ok ([Ev.sr (HTTP_RESPONSES 200) [], Ev.chunk []], fs2) ∧
      fsFind fs2 (joinP (joinP (joinP (joinP root repo) "data") (strTake2 name)) name)
        = some (Node.file env.body) ∧
      fsFind fs2 (joinP (joinP (joinP root repo) "data") (strTake2 name)) = some Node.dir ∧
      (∀ e, e ∈ fs2 → e ∈ fs ∨ e.1 = joinP (joinP (joinP root repo) "data") (strTake2 name)
          ∨ e.1 = joinP (joinP (joinP (joinP root repo) "data") (strTake2 name)) name) ∧
      (∀ q, q ≠ joinP (joinP (joinP root repo) "data") (strTake2 name) →
        q ≠ joinP (joinP (joinP (joinP root repo) "data") (strTake2 name)) name →
        fsFind fs2 q = fsFind fs q) := by
  have hsf : joinP (joinP (joinP root repo) "data") (strTake2 name)
      ≠ joinP (joinP (joinP (joinP root repo) "data") (strTake2 name)) name :=
    Ne.symm (joinP_ne _ name)
  unfold set_path_data
  rw [if_pos rfl]
  dsimp only
  rcases hshard with ⟨hsn, hfn⟩ | ⟨hsd, htarget⟩
  · have hmk : mkdir fs (joinP (joinP (joinP root repo) "data") (strTake2 name))
        = Except.ok (fs ++ [(joinP (joinP (joinP root repo) "data") (strTake2 name), Node.dir)]) := by
      apply mkdir_ok _ hsn
      rw [joinP_dropLast]
      exact hparent
    have hstep : (if (!pathExists fs (joinP (joinP (joinP root repo) "data") (strTake2 name))) = true
        then mkdir fs (joinP (joinP (joinP root repo) "data") (strTake2 name)) else Except.ok fs)
        = Except.ok (fs ++ [(joinP (joinP (joinP root repo) "data") (strTake2 name), Node.dir)]) := by
      rw [pathExists_of_find_none hsn, hmk]
      rfl
    have hparent1 : fsFind (fs ++ [(joinP (joinP (joinP root repo) "data") (strTake2 name), Node.dir)])
        ((joinP (joinP (joinP (joinP root repo) "data") (strTake2 name)) name).dropLast)
        = some Node.dir := by
      rw [joinP_dropLast, fsFind_append, hsn, fsFind_single, if_pos rfl]
      rfl
    have htarget1 : fsFind (fs ++ [(joinP (joinP (joinP root repo) "data") (strTake2 name), Node.dir)])
        (joinP (joinP (joinP (joinP root repo) "data") (strTake2 name)) name) = none := by
      rw [fsFind_append, hfn, fsFind_single, if_neg hsf]
      rfl
    obtain ⟨fs2, hw, hfull, hpres, hcont, hkeep⟩ :=
      writeFile_ok env.body hparent1 (Or.inl htarget1)
    refine ⟨fs2, ?_, hfull, ?_, ?_, ?_⟩
    · simp only [hstep, hw]
    · rw [hpres _ hsf, fsFind_append, hsn, fsFind_single, if_pos rfl]
      rfl
    · intro e he
      rcases hcont e he with h1 | h2
      · rcases List.mem_append.mp h1 with h3 | h4
        · exact Or.inl h3
        · right; left
          simp at h4
          rw [h4]
      · right; right
        rw [h2]
    · intro q hq1 hq2
      rw [hpres q hq2, fsFind_append, fsFind_single, if_neg (fun h => hq1 h.symm)]
      cases fsFind fs q <;> simp [Option.or]
  · have hstep : (if (!pathExists fs (joinP (joinP (joinP root repo) "data") (strTake2 name))) = true
        then mkdir fs (joinP (joinP (joinP root repo) "data") (strTake2 name)) else Except.ok fs)
        = Except.ok fs := by
      rw [pathExists_of_find_dir hsd]
      rfl
    have hparent1 : fsFind fs
        ((joinP (joinP (joinP (joinP root repo) "data") (strTake2 name)) name).dropLast)
        = some Node.dir := by
      rw [joinP_dropLast]
      exact hsd
    obtain ⟨fs2, hw, hfull, hpres, hcont, hkeep⟩ :=
      writeFile_ok env.body hparent1 htarget
    refine ⟨fs2, ?_, hfull, ?_, ?_, ?_⟩
    · simp only [hstep, hw]
    · rw [hpres _ hsf]
      exact hsd
    · intro e he
      rcases hcont e he with h1 | h2
      · exact Or.inl h1
      · right; right
        rw [h2]
    · intro q hq1 hq2
      exact hpres q hq2

theorem traceBody_header_chunks (s : String) (h : List (String × String)) (l : List Bytes) :
    traceBody ([Ev.sr s h] ++ l.map Ev.chunk) = flattenChunks l := by
  rw [List.singleton_append, traceBody_sr_cons]
  exact traceBody_map_chunk l

theorem get_path_data_full_200 (root : FPath) (env : Env) (path rtype name : String) (fs : Fs)
    (c : Bytes)
    (hstat : statNode fs (if rtype = "data"
        then joinP (joinP (joinP (joinP root path) rtype) (strTake2 name)) name
        else joinP (joinP (joinP root path) rtype) name) = some (Node.file c))
    (hR : env.httpRange = none) :
    get_path_data root env path rtype name fs
      = Except.ok ([Ev.sr (HTTP_RESPONSES 200)
          [("Content-Type", "binary/octet-stream"), ("Content-Length", toString c.length)]] ++
          (fullChunks c 0).map Ev.chunk, fs) := by
  unfold get_path_data
  simp only [hstat, hR, nodeSize]

/- ### Claim C5 -/

/-- C5: round-trip -- writing body bytes B as the blob `(repo, type, name)`
    and then performing a full read of the same blob yields exactly B, for
    every blob type: through `set_config`/`get_config` for `config` (the
    operations the dispatcher routes config-typed requests to), and through
    `set_path_data`/`get_path_data` for the flat types and for the sharded
    `data` type, each under the repository structure the operations
    require. -/
theorem c5_write_read_roundtrip :
    (∀ (root : FPath) (envW : Env) (repo name : String) (B : Bytes) (fs : Fs),
      envW.body = B → name ≠ "" →
      fsFind fs (joinP root repo) = some Node.dir →
      (fsFind fs (joinP (joinP root repo) "config") = none ∨
        ∃ c0, fsFind fs (joinP (joinP root repo) "config") = some (Node.file c0)) →
      ∃ fs2, set_config root envW repo fs
          = Except.ok ([Ev.sr (HTTP_RESPONSES 200) [], Ev.chunk []], fs2) ∧
        ∃ tr, get_config root repo fs2 = Except.ok (tr, fs2) ∧ traceBody tr = B) ∧
    (∀ (root : FPath) (envW envR : Env) (repo rtype name : String) (B : Bytes) (fs : Fs),
      envW.body = B → envR.httpRange = none →
      rtype ∈ RESTIC_TYPES → rtype ≠ "data" → rtype ≠ "config" → name ≠ "" →
      fsFind fs (joinP (joinP root repo) rtype) = some Node.dir →
      (fsFind fs (joinP (joinP (joinP root repo) rtype) name) = none ∨
        ∃ c0, fsFind fs (joinP (joinP (joinP root repo) rtype) name) = some (Node.file c0)) →
      ∃ fs2, set_path_data root envW repo rtype name fs
          = Except.ok ([Ev.sr (HTTP_RESPONSES 200) [], Ev.chunk []], fs2) ∧
        ∃ tr, get_path_data root envR repo rtype name fs2 = Except.ok (tr, fs2) ∧
          traceBody tr = B) ∧
    (∀ (root : FPath) (envW envR : Env) (repo name : String) (B : Bytes) (fs : Fs),
      envW.body = B → envR.httpRange = none → name ≠ "" →
      fsFind fs (joinP (joinP root repo) "data") = some Node.dir →
      ((fsFind fs (joinP (joinP (joinP root repo) "data") (strTake2 name)) = none ∧
        fsFind fs (joinP (joinP (joinP (joinP root repo) "data") (strTake2 name)) name) = none) ∨
       (fsFind fs (joinP (joinP (joinP root repo) "data") (strTake2 name)) = some Node.dir ∧
        (fsFind fs (joinP (joinP (joinP (joinP root repo) "data") (strTake2 name)) name) = none ∨
         ∃ c0, fsFind fs (joinP (joinP (joinP (joinP root repo) "data") (strTake2 name)) name)
            = some (Node.file c0)))) →
      ∃ fs2, set_path_data root envW repo "data" name fs
          = Except.ok ([Ev.sr (HTTP_RESPONSES 200) [], Ev.chunk []], fs2) ∧
        ∃ tr, get_path_data root envR repo "data" name fs2 = Except.ok (tr, fs2) ∧
          traceBody tr = B) := by
  refine ⟨?_, ?_, ?_⟩
  · intro root envW repo name B fs hB hname hroot htarget
    have hparent : fsFind fs ((joinP (joinP root repo) "config").dropLast) = some Node.dir := by
      rw [joinP_dropLast]
      exact hroot
    obtain ⟨fs2, hw, hfull, hpres, hcont, hkeep⟩ := writeFile_ok envW.body hparent htarget
    refine ⟨fs2, ?_, ?_⟩
    · unfold set_config
      simp only [hw]
    · refine ⟨[Ev.sr (HTTP_RESPONSES 200)
        [("Content-Type", "binary/octet-stream"), ("Content-Length", toString envW.body.length)]] ++
        (fullChunks envW.body 0).map Ev.chunk, ?_, ?_⟩
      · unfold get_config
        simp only [statNode_find_file hfull]
      · rw [traceBody_header_chunks, fullChunks_flatten, hB]
  · intro root envW envR repo rtype name B fs hB hR hmem hdata hconf hname hparent htarget
    have hparent2 : fsFind fs ((joinP (joinP (joinP root repo) rtype) name).dropLast)
        = some Node.dir := by
      rw [joinP_dropLast]
      exact hparent
    obtain ⟨fs2, hw, hfull, hpres, hcont, hkeep⟩ := writeFile_ok envW.body hparent2 htarget
    refine ⟨fs2, ?_, ?_⟩
    · unfold set_path_data
      rw [if_neg hdata]
      simp only [hw]
    · refine ⟨_, get_path_data_full_200 root envR repo rtype name fs2 envW.body ?_ hR, ?_⟩
      · rw [if_neg hdata]
        exact statNode_find_file hfull
      · rw [traceBody_header_chunks, fullChunks_flatten, hB]
  · intro root envW envR repo name B fs hB hR hname hparent hshard
    obtain ⟨fs2, hw, hfull, hsd2, hcont, hpres⟩ :=
      set_path_data_data_ok root envW repo name fs hparent hshard
    refine ⟨fs2, hw, ?_⟩
    refine ⟨_, get_path_data_full_200 root envR repo "data" name fs2 envW.body ?_ hR, ?_⟩
    · rw [if_pos rfl]
      exact statNode_find_file hfull
    · rw [traceBody_header_chunks, fullChunks_flatten, hB]

theorem c5_write_read_roundtrip_witness :
    (∃ fs2, set_config ["srv"] ⟨"POST", "/r/config", [], none, [7, 8]⟩ "r"
        [(["srv"], Node.dir), (["srv", "r"], Node.dir), (["srv", "r", "keys"], Node.dir),
         (["srv", "r", "data"], Node.dir)]
        = Except.ok ([Ev.sr (HTTP_RESPONSES 200) [], Ev.chunk []], fs2) ∧
      ∃ tr, get_config ["srv"] "r" fs2 = Except.ok (tr, fs2) ∧ traceBody tr = [7, 8]) ∧
    (∃ fs2, set_path_data ["srv"] ⟨"POST", "/r/keys/k1", [], none, [7, 8]⟩ "r" "keys" "k1"
        [(["srv"], Node.dir), (["srv", "r"], Node.dir), (["srv", "r", "keys"], Node.dir),
         (["srv", "r", "data"], Node.dir)]
        = Except.ok ([Ev.sr (HTTP_RESPONSES 200) [], Ev.chunk []], fs2) ∧
      ∃ tr, get_path_data ["srv"] ⟨"GET", "/r/keys/k1", [], none, []⟩ "r" "keys" "k1" fs2
          = Except.ok (tr, fs2) ∧ traceBody tr = [7, 8]) ∧
    (∃ fs2, set_path_data ["srv"] ⟨"POST", "/r/data/abcd", [], none, [7, 8]⟩ "r" "data" "abcd"
        [(["srv"], Node.dir), (["srv", "r"], Node.dir), (["srv", "r", "keys"], Node.dir),
         (["srv", "r", "data"], Node.dir)]
        = Except.ok ([Ev.sr (HTTP_RESPONSES 200) [], Ev.chunk []], fs2) ∧
      ∃ tr, get_path_data ["srv"] ⟨"GET", "/r/data/abcd", [], none, []⟩ "r" "data" "abcd" fs2
          = Except.ok (tr, fs2) ∧ traceBody tr = [7, 8]) := by
  refine ⟨?_, ?_, ?_⟩
  · exact c5_write_read_roundtrip.1 ["srv"] ⟨"POST", "/r/config", [], none, [7, 8]⟩ "r" "x"
      [7, 8] _ rfl (by decide) (by decide) (Or.inl (by decide))
  · exact c5_write_read_roundtrip.2.1 ["srv"] ⟨"POST", "/r/keys/k1", [], none, [7, 8]⟩
      ⟨"GET", "/r/keys/k1", [], none, []⟩ "r" "keys" "k1" [7, 8] _ rfl rfl (by decide)
      (by decide) (by decide) (by decide) (by decide) (Or.inl (by decide))
  · exact c5_write_read_roundtrip.2.2 ["srv"] ⟨"POST", "/r/data/abcd", [], none, [7, 8]⟩
      ⟨"GET", "/r/data/abcd", [], none, []⟩ "r" "abcd" [7, 8] _ rfl rfl (by decide)
      (by decide) (Or.inl ⟨by decide, by decide⟩)

/- ### Claim C6 -/

/-- C6: the sharding invariant for type `data`.  Writing a blob stores it
    at exactly `root/repo/data/{name[0:2]}/{name}` (every new filesystem
    entry lies inside that shard), the existence check answers 200 with the
    blob's size, a full read streams its content, the delete removes the
    file at the sharded path, and a successful listing of type `data`
    reports the blob under its full name. -/
theorem c6_data_sharding (root : FPath) (envW envR : Env) (repo name : String) (fs : Fs)
    (hname : name ≠ "")
    (hR : envR.httpRange = none)
    (hparent : fsFind fs (joinP (joinP root repo) "data") = some Node.dir)
    (hshard : (fsFind fs (joinP (joinP (joinP root repo) "data") (strTake2 name)) = none ∧
        fsFind fs (joinP (joinP (joinP (joinP root repo) "data") (strTake2 name)) name) = none) ∨
      (fsFind fs (joinP (joinP (joinP root repo) "data") (strTake2 name)) = some Node.dir ∧
        (fsFind fs (joinP (joinP (joinP (joinP root repo) "data") (strTake2 name)) name) = none ∨
         ∃ c0, fsFind fs (joinP (joinP (joinP (joinP root repo) "data") (strTake2 name)) name)
            = some (Node.file c0)))) :
    ∃ fs2,
      set_path_data root envW repo "data" name fs
        = Except.ok ([Ev.sr (HTTP_RESPONSES 200) [], Ev.chunk []], fs2) ∧
      fsFind fs2 (joinP (joinP (joinP (joinP root repo) "data") (strTake2 name)) name)
        = some (Node.file envW.body) ∧
      (∀ e, e ∈ fs2 → e ∈ fs ∨ e.1 = joinP (joinP (joinP root repo) "data") (strTake2 name)
          ∨ e.1 = joinP (joinP (joinP (joinP root repo) "data") (strTake2 name)) name) ∧
      get_path_check root repo "data" name fs2
        = Except.ok ([Ev.sr (HTTP_RESPONSES 200)
            [("Content-Type", "text/plain"), ("Content-Length", toString envW.body.length)],
            Ev.chunk []], fs2) ∧
      get_path_data root envR repo "data" name fs2
        = Except.ok ([Ev.sr (HTTP_RESPONSES 200)
            [("Content-Type", "binary/octet-stream"),
             ("Content-Length", toString envW.body.length)]] ++
            (fullChunks envW.body 0).map Ev.chunk, fs2) ∧
      (∃ fs3, delete_path_data root repo "data" name fs2
          = Except.ok ([Ev.sr (HTTP_RESPONSES 200) [], Ev.chunk []], fs3) ∧
        fsFind fs3 (joinP (joinP (joinP (joinP root repo) "data") (strTake2 name)) name)
          = none) ∧
      (∀ rs, path_list_results root fs2 repo "data" = Except.ok rs →
        (name, envW.body.length) ∈ rs) := by
  obtain ⟨fs2, hw, hfull, hsd2, hcont, hpres⟩ :=
    set_path_data_data_ok root envW repo name fs hparent hshard
  have hstat2 : statNode fs2 (joinP (joinP (joinP (joinP root repo) "data") (strTake2 name)) name)
      = some (Node.file envW.body) := statNode_find_file hfull
  refine ⟨fs2, hw, hfull, hcont, ?_, ?_, ?_, ?_⟩
  · unfold get_path_check
    rw [if_pos rfl]
    simp only [hstat2, nodeSize]
  · exact get_path_data_full_200 root envR repo "data" name fs2 envW.body
      (by rw [if_pos rfl]; exact hstat2) hR
  · have hex : pathExists fs2
        (joinP (joinP (joinP (joinP root repo) "data") (strTake2 name)) name) = true := by
      simp [pathExists, hstat2]
    have hun : unlink fs2 (joinP (joinP (joinP (joinP root repo) "data") (strTake2 name)) name)
        = Except.ok (fs2.filter (fun e =>
          !(decide (e.1 = joinP (joinP (joinP (joinP root repo) "data") (strTake2 name)) name)))) := by
      unfold unlink
      simp only [hfull]
    refine ⟨fs2.filter (fun e =>
      !(decide (e.1 = joinP (joinP (joinP (joinP root repo) "data") (strTake2 name)) name))), ?_, ?_⟩
    · unfold delete_path_data
      rw [if_pos rfl]
      dsimp only
      rw [if_pos hex]
      simp only [hun]
    · exact fsFind_erase fs2 _
  · intro rs hok
    have hdd2 : fsFind fs2 (joinP (joinP root repo) "data") = some Node.dir := by
      rw [hpres _ (Ne.symm (joinP_ne _ _)) ?_]
      · exact hparent
      · intro h
        have hlen := congrArg List.length h
        simp [joinP] at hlen
    unfold path_list_results at hok
    rw [if_pos rfl] at hok
    try dsimp only at hok
    obtain ⟨folders, hfolders, hfold⟩ := except_bind_ok hok
    obtain ⟨hr, hall⟩ := data_fold folders [] rs hfold
    have hfolders_val : folders = childNames fs2 (joinP (joinP root repo) "data") := by
      unfold listdir at hfolders
      rw [hdd2] at hfolders
      exact (Except.ok.inj hfolders).symm
    have hsmem : strTake2 name ∈ folders := by
      rw [hfolders_val]
      exact childNames_mem (fsFind_mem hsd2)
    obtain ⟨names, hnames⟩ := hall _ hsmem
    have hnames_val : names
        = childNames fs2 (joinP (joinP (joinP root repo) "data") (strTake2 name)) := by
      unfold listdir at hnames
      rw [hsd2] at hnames
      exact (Except.ok.inj hnames).symm
    have hnmem : name ∈ names := by
      rw [hnames_val]
      exact childNames_mem (fsFind_mem hfull)
    rw [hr, List.nil_append, List.mem_flatMap]
    refine ⟨strTake2 name, hsmem, ?_⟩
    simp only [hnames]
    rw [List.mem_filterMap]
    refine ⟨name, hnmem, ?_⟩
    unfold listFilter
    rw [hstat2]
    rfl

theorem c6_data_sharding_witness :
    ∃ fs2,
      set_path_data ["srv"] ⟨"POST", "/r/data/abcd", [], none, [7, 8, 9]⟩ "r" "data" "abcd"
          [(["srv"], Node.dir), (["srv", "r"], Node.dir), (["srv", "r", "data"], Node.dir)]
        = Except.ok ([Ev.sr (HTTP_RESPONSES 200) [], Ev.chunk []], fs2) ∧
      fsFind fs2 (joinP (joinP (joinP (joinP ["srv"] "r") "data") (strTake2 "abcd")) "abcd")
        = some (Node.file [7, 8, 9]) ∧
      (∀ e, e ∈ fs2 → e ∈ [(["srv"], Node.dir), (["srv", "r"], Node.dir),
          (["srv", "r", "data"], Node.dir)]
          ∨ e.1 = joinP (joinP (joinP ["srv"] "r") "data") (strTake2 "abcd")
          ∨ e.1 = joinP (joinP (joinP (joinP ["srv"] "r") "data") (strTake2 "abcd")) "abcd") ∧
      get_path_check ["srv"] "r" "data" "abcd" fs2
        = Except.ok ([Ev.sr (HTTP_RESPONSES 200)
            [("Content-Type", "text/plain"),
             ("Content-Length", toString ([7, 8, 9] : Bytes).length)],
            Ev.chunk []], fs2) ∧
      get_path_data ["srv"] ⟨"GET", "/r/data/abcd", [], none, []⟩ "r" "data" "abcd" fs2
        = Except.ok ([Ev.sr (HTTP_RESPONSES 200)
            [("Content-Type", "binary/octet-stream"),
             ("Content-Length", toString ([7, 8, 9] : Bytes).length)]] ++
            (fullChunks [7, 8, 9] 0).map Ev.chunk, fs2) ∧
      (∃ fs3, delete_path_data ["srv"] "r" "data" "abcd" fs2
          = Except.ok ([Ev.sr (HTTP_RESPONSES 200) [], Ev.chunk []], fs3) ∧
        fsFind fs3 (joinP (joinP (joinP (joinP ["srv"] "r") "data") (strTake2 "abcd")) "abcd")
          = none) ∧
      (∀ rs, path_list_results ["srv"] fs2 "r" "data" = Except.ok rs →
        ("abcd", ([7, 8, 9] : Bytes).length) ∈ rs) :=
  c6_data_sharding ["srv"] ⟨"POST", "/r/data/abcd", [], none, [7, 8, 9]⟩
    ⟨"GET", "/r/data/abcd", [], none, []⟩ "r" "abcd"
    [(["srv"], Node.dir), (["srv", "r"], Node.dir), (["srv", "r", "data"], Node.dir)]
    (by decide) rfl (by decide) (Or.inl ⟨by decide, by decide⟩)
